import Mathlib

/-!
Verification of the rtldavis weewx driver (bin/user/rtldavis.py).

This file is a shallow embedding of the driver's pure decoding and
bookkeeping logic:

* the Davis CRC-16 frame check used by `PacketFactory._check_crc`,
* the wind-speed error-correction table and `calc_wind_speed_ec` with its
  bilinear `interpolate` helper,
* the payload decoder `RtldavisDriver.parse_raw`,
* the line-oriented packet factory (`DATAPacket.parse_text`,
  `CHANNELPacket.parse_text`, `PacketFactory.parse_text/create`),
* the rain-delta conversion in `RtldavisDriver._data_to_packet`,
* the link-quality statistics (`_init_stats`, `_reset_stats`,
  `_update_summaries`),
* the constructor-time configuration checks of `RtldavisDriver.__init__`
  and `ch_to_xmit`, and
* the thermistor temperature conversion `calculate_thermistor_temp`.

Python floats are modelled by rationals, Python exceptions by an explicit
`Except` with a `PyErr` error type whose constructors name the Python
exception classes that the code can raise.
-/

set_option maxRecDepth 8000

attribute [local semireducible] Rat.ofScientific Rat.mul Rat.inv Rat.add Rat.sub

namespace Rtldavis

/-- The Python exception classes raised (directly or indirectly) by the
driver code, plus weewx's `WeeWxIOError`. -/
inductive PyErr where
  | valueError (msg : String)
  | nameError (msg : String)
  | weewxIOError (msg : String)
  | zeroDivisionError
  | indexError
  deriving Repr, DecidableEq

/-! ## CRC (weewx.crc16)

`crc16` is imported by the driver from weewx (`from weewx.crc16 import
crc16`) and is not part of this repository.  Modelled from the spec: the
integrity check is "a CRC computed over the full 8-byte frame"; weewx's
table-driven routine is the Davis CRC-16-CCITT (polynomial 0x1021,
initial value 0, MSB first), reproduced here bit by bit. -/

/-- One shift step of the CRC-16-CCITT register. -/
def crcShift (crc : Nat) : Nat :=
  if crc &&& 0x8000 ≠ 0 then ((crc <<< 1) ^^^ 0x1021) &&& 0xFFFF
  else (crc <<< 1) &&& 0xFFFF

/-- Fold one message byte into the CRC register. -/
def crc16Byte (crc b : Nat) : Nat :=
  crcShift^[8] (crc ^^^ ((b &&& 0xFF) <<< 8))

/-- CRC-16-CCITT of a byte list, initial register 0 (weewx.crc16). -/
def crc16 (msg : List Nat) : Nat :=
  msg.foldl crc16Byte 0

/-! ## Wind-speed error correction (source lines 256-397)

The correction table `windtab` is transcribed verbatim from the source:
row 0 is the angle header, column 0 of the other rows is the raw speed,
`[0][0]` is filler.  55 rows of 35 entries each. -/

def windtab : List (List Int) := [
  [0, 1, 4, 8, 12, 16, 20, 24, 28, 32, 36, 40, 44, 48, 52, 56, 60, 64, 68, 72, 76, 80, 84, 88, 92, 96, 100, 104, 108, 112, 116, 120, 124, 127, 128],
  [1, 0, 0, 0, 0, 0, 0, 0, 0, 0, 0, 0, 0, 0, 0, 0, 0, 0, 0, 0, 0, 0, 0, 0, 0, 0, 0, 0, 0, 0, 0, 0, 0, 0, 0],
  [2, 0, 0, 0, 0, 0, 0, 0, 0, 0, 0, 0, 0, 0, 0, 0, 0, 0, 0, 0, 0, 0, 0, 0, 0, 0, 0, 0, 0, 0, 0, 0, 0, 0, 0],
  [3, 0, 0, 0, 0, 0, 0, 0, 0, 0, 0, 0, 0, 0, 0, 0, 0, 0, 0, 0, 0, 0, 0, 0, 0, 0, 0, 0, 0, 1, 1, 1, 0, 0, 0],
  [4, 0, 0, 0, 0, 0, 0, 0, 0, 0, 0, 0, 0, 0, 0, 0, 0, 0, 0, 0, 0, 0, 0, 0, 0, 0, 0, 0, 0, 1, 1, 1, 0, 0, 0],
  [5, 0, 0, 0, 0, 0, 0, 0, 0, 0, 0, 0, 0, 0, 0, 0, 0, 1, 1, 1, 1, 1, 0, 0, 0, 0, 0, 0, 0, 1, 1, 1, 1, 0, 0],
  [6, 1, 1, 1, 0, 0, 0, 0, 0, 0, 0, 0, 0, 0, 1, 1, 1, 1, 1, 1, 1, 1, 1, 1, 1, 1, 0, 0, 1, 1, 1, 1, 1, 0, 0],
  [7, 1, 1, 1, 1, 1, 1, 0, 0, 0, 0, 1, 1, 1, 1, 1, 1, 1, 1, 1, 1, 1, 1, 1, 1, 1, 1, 1, 1, 1, 2, 2, 1, 0, 0],
  [8, 1, 1, 1, 1, 1, 1, 1, 1, 1, 1, 1, 1, 1, 1, 1, 1, 1, 1, 1, 1, 1, 1, 1, 1, 1, 1, 1, 1, 1, 2, 2, 1, 0, 0],
  [9, 1, 1, 1, 1, 1, 1, 1, 1, 1, 1, 1, 1, 1, 1, 1, 1, 1, 1, 1, 1, 1, 1, 1, 1, 1, 1, 1, 1, 1, 2, 2, 1, 0, 0],
  [10, 1, 1, 1, 1, 1, 1, 1, 1, 1, 1, 1, 1, 1, 1, 1, 1, 1, 1, 1, 1, 1, 1, 1, 1, 1, 1, 1, 1, 2, 2, 2, 1, 0, 0],
  [11, 1, 1, 1, 1, 1, 1, 1, 1, 1, 1, 1, 1, 1, 1, 1, 1, 1, 1, 1, 1, 1, 1, 1, 1, 1, 1, 1, 1, 2, 2, 2, 1, 0, 0],
  [12, 1, 1, 1, 1, 1, 1, 1, 1, 1, 1, 1, 1, 1, 1, 1, 1, 1, 1, 1, 1, 1, 1, 1, 1, 1, 1, 1, 1, 2, 2, 2, 1, 0, 0],
  [13, 1, 1, 1, 1, 1, 1, 1, 1, 1, 1, 1, 1, 1, 1, 1, 1, 1, 1, 1, 1, 1, 1, 1, 1, 1, 1, 1, 1, 2, 3, 3, 1, 0, 0],
  [14, 1, 1, 1, 1, 1, 1, 1, 1, 1, 1, 1, 1, 1, 1, 1, 1, 1, 1, 1, 1, 1, 1, 1, 1, 1, 1, 1, 1, 2, 3, 3, 1, 0, 0],
  [15, 1, 1, 1, 1, 1, 1, 1, 1, 1, 1, 1, 1, 1, 1, 1, 1, 1, 1, 1, 1, 1, 1, 1, 1, 1, 1, 1, 1, 2, 3, 3, 1, 0, 0],
  [16, 1, 1, 1, 1, 1, 1, 1, 1, 1, 1, 1, 1, 1, 1, 1, 1, 1, 1, 1, 1, 1, 1, 1, 1, 1, 1, 1, 1, 2, 3, 3, 1, 0, 0],
  [17, 1, 1, 1, 1, 1, 1, 1, 1, 1, 1, 1, 1, 1, 1, 1, 1, 1, 1, 1, 1, 1, 1, 1, 1, 1, 1, 1, 1, 2, 3, 3, 1, 0, 0],
  [18, 1, 1, 1, 1, 1, 1, 1, 1, 1, 1, 1, 1, 1, 1, 1, 1, 1, 1, 1, 1, 1, 1, 1, 1, 1, 1, 1, 1, 2, 3, 3, 1, 0, 0],
  [19, 1, 1, 1, 1, 1, 1, 1, 1, 1, 1, 1, 1, 1, 1, 1, 1, 1, 1, 1, 1, 1, 1, 1, 1, 1, 1, 1, 1, 3, 4, 4, 1, 0, 0],
  [20, 1, 1, 1, 1, 1, 1, 1, 1, 1, 1, 1, 1, 1, 1, 1, 1, 1, 1, 1, 2, 1, 1, 1, 1, 1, 1, 1, 1, 3, 4, 4, 2, 0, 0],
  [21, 1, 1, 1, 1, 1, 1, 1, 1, 1, 1, 1, 1, 1, 1, 1, 1, 1, 2, 2, 2, 1, 1, 1, 1, 1, 1, 1, 1, 3, 4, 4, 2, 0, 0],
  [22, 1, 1, 1, 1, 1, 1, 1, 1, 1, 1, 1, 1, 1, 1, 1, 1, 2, 2, 2, 2, 2, 1, 1, 1, 1, 1, 1, 1, 3, 4, 4, 2, 0, 0],
  [23, 1, 1, 1, 1, 1, 1, 1, 1, 1, 1, 1, 1, 1, 1, 1, 1, 2, 2, 2, 2, 2, 1, 1, 1, 1, 1, 1, 1, 3, 4, 4, 2, 0, 0],
  [24, 1, 1, 1, 1, 1, 1, 1, 1, 1, 1, 1, 1, 1, 1, 1, 2, 2, 2, 2, 2, 2, 1, 1, 1, 1, 1, 1, 2, 3, 4, 4, 2, 0, 0],
  [25, 1, 1, 1, 1, 1, 1, 1, 1, 1, 1, 1, 1, 1, 1, 1, 2, 2, 2, 2, 2, 2, 2, 1, 1, 1, 1, 1, 2, 3, 4, 4, 2, 0, 0],
  [26, 1, 1, 1, 1, 1, 1, 1, 1, 1, 1, 1, 1, 1, 1, 1, 2, 2, 2, 2, 2, 2, 2, 1, 1, 1, 1, 1, 2, 3, 5, 4, 2, 0, 0],
  [27, 1, 1, 1, 1, 1, 1, 1, 1, 1, 1, 1, 1, 1, 1, 1, 2, 2, 2, 2, 2, 2, 2, 1, 1, 1, 1, 1, 2, 3, 5, 5, 2, 0, 0],
  [28, 1, 1, 1, 1, 1, 1, 1, 1, 1, 1, 1, 1, 1, 1, 1, 2, 2, 2, 2, 2, 2, 2, 1, 1, 1, 1, 1, 2, 3, 5, 5, 2, 0, 0],
  [29, 1, 1, 1, 1, 1, 1, 1, 1, 1, 1, 1, 1, 1, 1, 1, 2, 2, 2, 2, 2, 2, 2, 2, 1, 1, 1, 1, 2, 3, 5, 5, 2, 0, 0],
  [30, 1, 1, 1, 1, 1, 1, 1, 1, 1, 1, 1, 1, 1, 1, 1, 2, 2, 2, 2, 2, 2, 2, 2, 1, 1, 1, 1, 2, 3, 5, 5, 2, 0, 0],
  [35, 1, 1, 1, 1, 1, 1, 1, 1, 1, 1, 1, 1, 1, 1, 2, 2, 2, 2, 2, 2, 2, 2, 2, 1, 1, 1, 1, 2, 4, 6, 5, 2, 0, -1],
  [40, 1, 1, 1, 1, 1, 1, 1, 1, 1, 1, 1, 1, 1, 1, 2, 2, 2, 2, 2, 2, 2, 2, 2, 1, 1, 1, 1, 2, 4, 6, 6, 2, 0, -1],
  [45, 1, 1, 1, 1, 1, 1, 1, 1, 1, 1, 1, 1, 1, 1, 1, 2, 2, 2, 2, 2, 2, 2, 2, 1, 1, 1, 1, 2, 4, 7, 6, 2, -1, -1],
  [50, 1, 1, 1, 1, 1, 1, 0, 0, 0, 0, 1, 1, 1, 1, 1, 2, 2, 2, 2, 2, 2, 2, 1, 1, 1, 1, 1, 2, 5, 7, 7, 2, -1, -2],
  [55, 1, 1, 1, 1, 1, 0, 0, 0, 0, 0, 0, 1, 1, 1, 1, 2, 2, 2, 2, 2, 2, 2, 1, 1, 1, 1, 1, 2, 5, 8, 7, 2, -1, -2],
  [60, 1, 1, 1, 1, 1, 0, 0, 0, 0, 0, 0, 1, 1, 1, 1, 2, 2, 2, 2, 2, 2, 2, 1, 1, 1, 1, 1, 2, 5, 8, 8, 2, -1, -2],
  [65, 1, 1, 1, 1, 0, 0, 0, 0, 0, 0, 0, 1, 1, 1, 1, 2, 2, 2, 2, 2, 2, 2, 1, 1, 1, 1, 1, 2, 5, 9, 8, 2, -2, -3],
  [70, 1, 1, 1, 1, 0, 0, 0, 0, 0, 0, 0, 0, 1, 1, 1, 2, 2, 2, 2, 2, 2, 2, 1, 1, 1, 1, 0, 2, 5, 9, 9, 2, -2, -3],
  [75, 1, 1, 1, 1, 0, 0, 0, 0, 0, 0, 0, 0, 1, 1, 1, 2, 2, 2, 2, 2, 2, 2, 1, 1, 1, 1, 0, 2, 6, 10, 9, 2, -2, -3],
  [80, 1, 1, 1, 1, 0, 0, 0, 0, 0, 0, 0, 0, 1, 1, 1, 2, 2, 2, 2, 2, 2, 2, 1, 1, 1, 1, 0, 2, 6, 10, 10, 2, -2, -3],
  [85, 1, 1, 1, 1, 0, 0, 0, 0, 0, 0, 0, 0, 1, 1, 1, 2, 2, 2, 2, 2, 2, 2, 2, 1, 1, 1, 0, 2, 7, 11, 11, 2, -3, -4],
  [90, 1, 1, 1, 1, 0, 0, 0, 0, 0, 0, 0, 0, 1, 1, 2, 2, 2, 2, 2, 2, 2, 2, 2, 1, 1, 1, 1, 2, 7, 12, 11, 2, -3, -4],
  [95, 1, 1, 1, 1, 0, 0, 0, 0, 0, 0, 0, 1, 1, 1, 2, 2, 2, 2, 2, 3, 2, 2, 2, 1, 1, 1, 1, 2, 7, 12, 12, 3, -3, -4],
  [100, 1, 1, 1, 1, 0, 0, 0, 0, 0, 0, 0, 1, 1, 1, 2, 2, 2, 2, 3, 3, 2, 2, 2, 1, 1, 1, 1, 2, 8, 13, 12, 3, -3, -4],
  [105, 1, 1, 1, 1, 0, 0, 0, 0, 0, 0, 0, 1, 1, 1, 2, 2, 3, 3, 3, 3, 3, 2, 2, 2, 1, 1, 1, 2, 8, 13, 13, 3, -3, -4],
  [110, 1, 1, 1, 1, 0, 0, 0, 0, 0, 0, 0, 1, 1, 1, 2, 2, 3, 3, 3, 3, 3, 2, 2, 2, 1, 1, 1, 2, 8, 14, 14, 3, -3, -5],
  [115, 1, 1, 1, 1, 1, 0, 0, 0, 0, 0, 0, 1, 1, 2, 2, 2, 3, 3, 3, 3, 3, 2, 2, 2, 1, 1, 1, 2, 9, 15, 14, 3, -3, -5],
  [120, 1, 1, 1, 1, 1, 0, 0, 0, 0, 0, 0, 1, 1, 2, 2, 2, 3, 3, 3, 3, 3, 2, 2, 2, 1, 1, 1, 3, 9, 15, 15, 3, -4, -5],
  [125, 1, 1, 2, 1, 1, 0, 0, 0, 0, 0, 0, 1, 1, 2, 2, 3, 3, 3, 3, 3, 3, 3, 2, 2, 1, 1, 1, 3, 10, 16, 16, 3, -4, -5],
  [130, 1, 1, 2, 1, 1, 0, 0, 0, 0, 0, 0, 1, 1, 2, 2, 3, 3, 3, 3, 3, 3, 3, 2, 2, 2, 1, 1, 3, 10, 17, 16, 3, -4, -6],
  [135, 1, 2, 2, 1, 1, 0, 0, 0, -1, 0, 0, 1, 1, 2, 2, 3, 3, 3, 3, 4, 3, 3, 2, 2, 2, 1, 1, 3, 10, 17, 17, 4, -4, -6],
  [140, 1, 2, 2, 1, 1, 0, 0, 0, -1, 0, 0, 1, 1, 2, 2, 3, 3, 3, 4, 4, 3, 3, 2, 2, 2, 1, 1, 3, 11, 18, 17, 4, -4, -6],
  [145, 2, 2, 2, 1, 1, 0, 0, 0, -1, 0, 0, 1, 1, 2, 2, 3, 3, 4, 4, 4, 3, 3, 3, 2, 2, 1, 1, 3, 11, 19, 18, 4, -4, -6],
  [150, 2, 2, 2, 1, 1, 0, 0, -1, -1, 0, 0, 1, 1, 2, 3, 3, 4, 4, 4, 4, 4, 3, 3, 2, 2, 1, 1, 3, 12, 19, 19, 4, -4, -6]
]

/-- Table access `windtab[s][a]` as an integer (both indices always in range at every
use site below, so the default is never reached). -/
def wtv (s a : Nat) : Int :=
  (windtab.getD s []).getD a 0

/-- The two `while` loops of `calc_wind_speed_ec`
(`while windtab[s0][0] < raw_mph: s0 += 1` and the analogous angle loop):
starting from index `i`, advance while `get` is below `x`.  The fuel
argument is an upper bound on the number of steps; the loops of the
source always stop on a table entry before the table ends. -/
def scanGE (get : Nat → Int) (x : Int) : Nat → Nat → Nat
  | 0, i => i
  | fuel + 1, i => if get i < x then scanGE get x fuel (i + 1) else i

/-- Index bracketing of `calc_wind_speed_ec` (source lines 337-356):
from raw speed and (already folded) raw angle, compute the row indices
`s0 ≤ s1` and column indices `a0 ≤ a1` of the surrounding table corners,
with the source's exact clamping arithmetic. -/
def windLocate (raw_mph raw_angle : Int) : Nat × Nat × Nat × Nat :=
  let s0 := scanGE (fun s => wtv s 0) raw_mph 54 1
  let a0 := scanGE (fun a => wtv 0 a) raw_angle 34 1
  let sp : Nat × Nat :=
    if wtv s0 0 = raw_mph then (s0, s0)
    else
      let s0' := if s0 > 1 then s0 - 1 else s0
      (s0', if s0' = 54 then 54 else s0' + 1)
  let ap : Nat × Nat :=
    if wtv 0 a0 = raw_angle then (a0, a0)
    else
      let a0' := if a0 > 1 then a0 - 1 else a0
      (a0', if a0' = 54 then 33 else a0' + 1)
  (sp.1, sp.2, ap.1, ap.2)

/-- Source `interpolate` (lines 379-397), verbatim over rationals. -/
def interpolate (rx0 rx1 ry0 ry1 x0 x1 y0 y1 x y : ℚ) : ℚ :=
  if rx0 = rx1 then
    y + x0 + (y - ry0) / (ry1 - ry0) * (y1 - y0)
  else if ry0 = ry1 then
    y + y0 + (x - rx0) / (rx1 - rx0) * (x1 - x0)
  else
    let dy0 := x0 + (y - ry0) / (ry1 - ry0) * (y0 - x0)
    let dy1 := x1 + (y - ry0) / (ry1 - ry0) * (y1 - x1)
    y + dy0 + (x - rx0) / (rx1 - rx0) * (dy1 - dy0)

/-- Source `calc_wind_speed_ec` (lines 256-365).  Raw speed and raw angle
are the integer byte values the driver feeds in. -/
def calc_wind_speed_ec (raw_mph raw_angle : Int) : ℚ :=
  if raw_mph < 3 ∨ raw_mph > 150 then (raw_mph : ℚ)
  else
    let ang := if raw_angle > 128 then 256 - raw_angle else raw_angle
    let l := windLocate raw_mph ang
    let s0 := l.1
    let s1 := l.2.1
    let a0 := l.2.2.1
    let a1 := l.2.2.2
    if s0 = s1 ∧ a0 = a1 then (raw_mph : ℚ) + (wtv s0 a0 : ℚ)
    else
      interpolate (wtv 0 a0 : ℚ) (wtv 0 a1 : ℚ)
        (wtv s0 0 : ℚ) (wtv s1 0 : ℚ)
        (wtv s0 a0 : ℚ) (wtv s0 a1 : ℚ)
        (wtv s1 a0 : ℚ) (wtv s1 a1 : ℚ)
        (ang : ℚ) (raw_mph : ℚ)

/-- The wind correction exactly as the specification describes it
(spec 4.2): fold angles above 128, locate the bracketing table corners,
use the table entry directly at exact grid points, otherwise add a
bilinear interpolation over the four surrounding corners (degenerating
to linear interpolation along the axis whose raw value is exact, with
the interpolation weight 0 on the exact axis). -/
def specWindCorrect (raw_mph raw_angle : Int) : ℚ :=
  let ang := if raw_angle > 128 then 256 - raw_angle else raw_angle
  let l := windLocate raw_mph ang
  let s0 := l.1
  let s1 := l.2.1
  let a0 := l.2.2.1
  let a1 := l.2.2.2
  let t : ℚ := if s0 = s1 then 0 else
    ((raw_mph : ℚ) - (wtv s0 0 : ℚ)) / ((wtv s1 0 : ℚ) - (wtv s0 0 : ℚ))
  let u : ℚ := if a0 = a1 then 0 else
    ((ang : ℚ) - (wtv 0 a0 : ℚ)) / ((wtv 0 a1 : ℚ) - (wtv 0 a0 : ℚ))
  (raw_mph : ℚ) +
    ((1 - t) * (1 - u) * (wtv s0 a0 : ℚ) + (1 - t) * u * (wtv s0 a1 : ℚ) +
      t * (1 - u) * (wtv s1 a0 : ℚ) + t * u * (wtv s1 a1 : ℚ))

/-- The wind correction as `calc_wind_speed_ec` actually computes it,
in the spec's weight form: angles folded above 128 and bracketing as in
`windLocate`; at an exact grid point the table entry is added directly;
when only the angle is an exact grid column the correction of the lower
bracketing speed row is added unchanged (the source's `interpolate`
multiplies the speed weight by `y1 - y0`, two identical corners, so the
speed interpolation vanishes); when only the speed is an exact grid row
the two bracketing columns are interpolated linearly; otherwise the
four surrounding corners are interpolated bilinearly.  Speeds below 3
or above 150 are returned uncorrected. -/
def amendedWindCorrect (raw_mph raw_angle : Int) : ℚ :=
  if raw_mph < 3 ∨ raw_mph > 150 then (raw_mph : ℚ)
  else
    let ang := if raw_angle > 128 then 256 - raw_angle else raw_angle
    let l := windLocate raw_mph ang
    let s0 := l.1
    let s1 := l.2.1
    let a0 := l.2.2.1
    let a1 := l.2.2.2
    if s0 = s1 ∧ a0 = a1 then (raw_mph : ℚ) + (wtv s0 a0 : ℚ)
    else if a0 = a1 then (raw_mph : ℚ) + (wtv s0 a0 : ℚ)
    else if s0 = s1 then
      let u : ℚ := ((ang : ℚ) - (wtv 0 a0 : ℚ)) / ((wtv 0 a1 : ℚ) - (wtv 0 a0 : ℚ))
      (raw_mph : ℚ) + ((1 - u) * (wtv s0 a0 : ℚ) + u * (wtv s0 a1 : ℚ))
    else
      let u : ℚ := ((ang : ℚ) - (wtv 0 a0 : ℚ)) / ((wtv 0 a1 : ℚ) - (wtv 0 a0 : ℚ))
      let t : ℚ := ((raw_mph : ℚ) - (wtv s0 0 : ℚ)) / ((wtv s1 0 : ℚ) - (wtv s0 0 : ℚ))
      (raw_mph : ℚ) + ((1 - t) * (1 - u) * (wtv s0 a0 : ℚ) +
        (1 - t) * u * (wtv s0 a1 : ℚ) + t * (1 - u) * (wtv s1 a0 : ℚ) +
        t * u * (wtv s1 a1 : ℚ))

/-! ## Calibration tables and thermistor formula (source lines 164-253) -/

/-- Default temperature for soil/leaf sensors without one (source line 167). -/
def DEFAULT_SOIL_TEMP : ℚ := 24

/-- Table with raw values and corresponding potentials (the source's
two-row dict maps, `RAW`/`POT`). -/
structure LookupTable where
  rawv : List ℚ
  potv : List ℚ
  deriving Repr

/-- Soil-moisture lookup table `SM_MAP` (source lines 174-175). -/
def SM_MAP : LookupTable :=
  ⟨[99.2, 140.1, 218.7, 226.9, 266.8, 391.7, 475.6, 538.2, 596.1, 673.7, 720.1],
   [0.0, 1.0, 9.0, 10.0, 15.0, 35.0, 55.0, 75.0, 100.0, 150.0, 200.0]⟩

/-- Leaf-wetness lookup table `LW_MAP` (source lines 179-180). -/
def LW_MAP : LookupTable :=
  ⟨[857.0, 864.0, 895.0, 911.0, 940.0, 952.0, 991.0, 1013.0],
   [15.0, 14.0, 5.0, 4.0, 3.0, 2.0, 1.0, 0.0]⟩

/-- The raw-to-resistance conversion at the start of
`calculate_thermistor_temp`: `r = a / (1.0 / temp_raw - b) / 1000`. -/
def thermResistance (temp_raw : ℚ) : ℚ :=
  18.81099 / (1 / temp_raw - 0.0009988027) / 1000

/-- Source `calculate_thermistor_temp` (lines 183-206).  `math.log` is
Python's natural logarithm; it is abstracted as the argument `log`
(the theorems below assume of it only what `math.log` guarantees).
`math.log` raises `ValueError` exactly on non-positive arguments; the
source catches that and returns `DEFAULT_SOIL_TEMP`.  A zero `temp_raw`
raises `ZeroDivisionError` before the `try` block, uncaught, as does a
vanishing Steinhart-Hart denominator inside it. -/
def calculate_thermistor_temp (log : ℚ → ℚ) (temp_raw : ℚ) : Except PyErr ℚ :=
  if temp_raw = 0 then .error .zeroDivisionError
  else if (1 : ℚ) / temp_raw - 0.0009988027 = 0 then .error .zeroDivisionError
  else
    let r := thermResistance temp_raw
    if r ≤ 0 then .ok DEFAULT_SOIL_TEMP
    else
      let d := 0.002783573 + 0.0002509406 * log r
      if d = 0 then .error .zeroDivisionError
      else .ok (1 / d - 273)

/-- The `for x in range(0, numcols)` scan of `lookup_potential`
(source lines 234-252): find the first table column whose raw value
exceeds the normalized reading and interpolate linearly below it.
`fuel` counts the remaining iterations, `x` is the loop variable. -/
def lookupScan (tbl : LookupTable) (norm : ℚ) : Nat → Nat → ℚ
  | 0, _ => tbl.potv.getD 0 0
  | fuel + 1, x =>
    if norm < tbl.rawv.getD x 0 then
      if x = 0 then tbl.potv.getD 0 0
      else
        let ppr := (tbl.potv.getD x 0 - tbl.potv.getD (x - 1) 0) /
          (tbl.rawv.getD x 0 - tbl.rawv.getD (x - 1) 0)
        tbl.potv.getD (x - 1) 0 + (norm - tbl.rawv.getD (x - 1) 0) * ppr
    else lookupScan tbl norm fuel (x + 1)

/-- Source `lookup_potential` (lines 209-253). -/
def lookup_potential (norm_fact sensor_raw sensor_temp : ℚ)
    (tbl : LookupTable) : ℚ :=
  let norm := sensor_raw * (1 + norm_fact * (sensor_temp - DEFAULT_SOIL_TEMP))
  let numcols := tbl.rawv.length
  if norm ≥ tbl.rawv.getD (numcols - 1) 0 then tbl.potv.getD (numcols - 1) 0
  else lookupScan tbl norm numcols 0

/-! ## Payload decoder (RtldavisDriver.parse_raw, source lines 1025-1341) -/

/-- The configured role-to-channel assignment (`self.channels`). -/
structure Channels where
  iss : Int
  anemometer : Int
  leaf_soil : Int
  temp_hum_1 : Int
  temp_hum_2 : Int
  deriving Repr, DecidableEq

/-- Constant `MPH_TO_MPS = 1609.34 / 3600.0` (source line 143). -/
def MPH_TO_MPS : ℚ := 160934 / 360000

/-- Python 3 `round` to an integer: round-half-to-even. -/
def pyRound (x : ℚ) : Int :=
  let n := x.floor
  let frac := x - (n : ℚ)
  if frac < 1 / 2 then n
  else if frac > 1 / 2 then n + 1
  else if Even n then n else n + 1

/-- External collaborator `weewx.wxformulas.FtoC`: Fahrenheit to
Celsius. -/
def FtoC (f : ℚ) : ℚ := (f - 32) * 5 / 9

/-- A decoded reading: observation names with numeric values, in
insertion order (the Python `data` dict). -/
abbrev Reading := List (String × ℚ)

/-- The wind block of `parse_raw` (source lines 1046-1085).  The stores
into `data` sit inside the `else` branch of the dead-band dispatch, so
raw directions 0 and 255 compute `wind_dir_pro` but store nothing. -/
def windReadings (ws wd : Nat) : Reading :=
  if ws = 0 ∧ wd = 0 then []
  else if wd = 0 then []
  else if wd = 255 then []
  else
    let wind_dir_pro : ℚ := 9 + ((wd : ℚ) - 1) * 342 / 253
    let ec : Int := pyRound (calc_wind_speed_ec (ws : Int) (wd : Int))
    [("wind_speed_ec", (ec : ℚ)), ("wind_speed_raw", (ws : ℚ)),
     ("wind_dir", wind_dir_pro), ("wind_speed", (ec : ℚ) * MPH_TO_MPS)]

/-- The message-type dispatch of `parse_raw` for ISS / anemometer /
temp-hum channels (source lines 1089-1280), producing the readings the
selected branch stores.  `channel` is the already-offset channel.  Rain
rate and analog temperature can raise `ZeroDivisionError` on a zero
divisor; the thermistor path inherits `calculate_thermistor_temp`'s
errors. -/
def messageTypeReadings (log : ℚ → ℚ) (ch : Channels) (rain_per_tip : ℚ)
    (channel : Int) (b3 b4 _b5 : Nat) (message_type : Nat) :
    Except PyErr Reading :=
  if message_type = 2 then
    let sc := ((b3 <<< 2) + (b4 >>> 6)) &&& 0x3FF
    .ok (if sc ≠ 0x3FF then [("supercap_volt", (sc : ℚ) / 300)] else [])
  else if message_type = 3 then .ok []
  else if message_type = 4 then
    let uv := ((b3 <<< 2) + (b4 >>> 6)) &&& 0x3FF
    .ok (if uv ≠ 0x3FF then [("uv", (uv : ℚ) / 50)] else [])
  else if message_type = 5 then
    let tbt := ((b4 &&& 0x30) <<< 4) + b3
    if channel = ch.iss then
      if tbt = 0x3FF then .ok [("rain_rate", 0)]
      else if b4 &&& 0x40 = 0 then
        if (tbt : ℚ) / 16 = 0 then .error .zeroDivisionError
        else .ok [("rain_rate", 3600 / ((tbt : ℚ) / 16) * rain_per_tip)]
      else
        if (tbt : ℚ) = 0 then .error .zeroDivisionError
        else .ok [("rain_rate", 3600 / (tbt : ℚ) * rain_per_tip)]
    else .ok []
  else if message_type = 6 then
    let sr := ((b3 <<< 2) + (b4 >>> 6)) &&& 0x3FF
    .ok (if sr < 0x3FE then [("solar_radiation", (sr : ℚ) * 1.757936)] else [])
  else if message_type = 7 then
    let sp := ((b3 <<< 2) + (b4 >>> 6)) &&& 0x3FF
    .ok (if sp ≠ 0x3FF then [("solar_power", (sp : ℚ) / 300)] else [])
  else if message_type = 8 then
    let temp_raw := (b3 <<< 4) + (b4 >>> 4)
    if temp_raw ≠ 0xFFC then do
      let temp_c ←
        if b4 &&& 0x8 ≠ 0 then .ok (FtoC ((temp_raw : ℚ) / 10))
        else calculate_thermistor_temp log ((temp_raw : ℚ) / 4)
      let key :=
        if channel = ch.temp_hum_1 then "temp_1"
        else if channel = ch.temp_hum_2 then "temp_2"
        else "temperature"
      .ok [(key, temp_c)]
    else .ok []
  else if message_type = 9 then .ok []
  else if message_type = 0xA then
    let hraw := ((b4 >>> 4) <<< 8) + b3
    if hraw ≠ 0 then
      let humidity : ℚ :=
        if b4 &&& 0x08 = 0x8 then (hraw : ℚ) / 10
        else (hraw : ℚ) * (-0.301) + 710.23
      if channel = ch.temp_hum_1 then .ok [("humid_1", humidity)]
      else if channel = ch.temp_hum_2 then .ok [("humid_2", humidity)]
      else if channel = ch.anemometer then .ok []
      else .ok [("humidity", humidity)]
    else .ok []
  else if message_type = 0xC then .ok []
  else if message_type = 0xE then
    let rc := b3
    .ok (if rc ≠ 0x80 then [("rain_count", ((rc &&& 0x7F : Nat) : ℚ))] else [])
  else .ok []

/-- The leaf/soil station branch of `parse_raw`
(source lines 1282-1336), minus the battery entry.  `b0 .. b5` are
`pkt[0] .. pkt[5]`.  Soil/leaf temperatures go through the thermistor
formula; the measured (or default) temperature then normalizes the raw
potential for the table lookup. -/
def leafSoilReadings (log : ℚ → ℚ) (b0 b1 b2 b3 b4 b5 : Nat) :
    Except PyErr Reading :=
  let data_type := b0 >>> 4
  if data_type = 0xF then
    let data_subtype := b1 &&& 0x3
    let sensor_num := ((b1 &&& 0xE0) >>> 5) + 1
    let temp_raw := ((b3 <<< 2) + (b5 >>> 6)) &&& 0x3FF
    let potential_raw := ((b2 <<< 2) + (b4 >>> 6)) &&& 0x3FF
    if data_subtype = 1 then do
      let tc ←
        if b3 ≠ 0xFF then calculate_thermistor_temp log (temp_raw : ℚ)
        else .ok DEFAULT_SOIL_TEMP
      let tempData : Reading :=
        if b3 ≠ 0xFF then [("soil_temp_" ++ toString sensor_num, tc)] else []
      let moistData : Reading :=
        if b2 ≠ 0xFF then
          [("soil_moisture_" ++ toString sensor_num,
            lookup_potential 0.009 (potential_raw : ℚ) tc SM_MAP)]
        else []
      .ok (tempData ++ moistData)
    else if data_subtype = 2 then do
      let tc ←
        if b3 ≠ 0xFF then calculate_thermistor_temp log (temp_raw : ℚ)
        else .ok DEFAULT_SOIL_TEMP
      let tempData : Reading :=
        if b3 ≠ 0xFF then [("leaf_temp_" ++ toString sensor_num, tc)] else []
      let wetData : Reading :=
        if b2 ≠ 0 then
          [("leaf_wetness_" ++ toString sensor_num,
            lookup_potential 0.0 (potential_raw : ℚ) tc LW_MAP)]
        else []
      .ok (tempData ++ wetData)
    else .ok []
  else .ok []

/-- Source `RtldavisDriver.parse_raw` (lines 1025-1341).  Reads the
channel and battery bit from byte 0 and dispatches on the configured
role of the channel.  The final `else` branch of the source logs with
the unbound name `raw` (`logerr("unknown station with channel: %s, raw
message: %s" % (data..., raw))`), which raises `NameError` in Python:
that is the `.error (.nameError ...)` case. -/
def parse_raw (log : ℚ → ℚ) (ch : Channels) (rain_per_tip : ℚ)
    (pkt : List Nat) : Except PyErr Reading :=
  let b := fun i => pkt.getD i 0
  let channel : Int := ((b 0 &&& 0x7 : Nat) : Int) + 1
  let battery_low : ℚ := (((b 0 >>> 3) &&& 0x1 : Nat) : ℚ)
  if channel = ch.iss ∨ channel = ch.anemometer ∨
      channel = ch.temp_hum_1 ∨ channel = ch.temp_hum_2 then do
    let batKey :=
      if channel = ch.iss then "bat_iss"
      else if channel = ch.anemometer then "bat_anemometer"
      else if channel = ch.temp_hum_1 then "bat_th_1"
      else "bat_th_2"
    let message_type := (b 0 >>> 4) &&& 0xF
    let msgData ← messageTypeReadings log ch rain_per_tip channel
      (b 3) (b 4) (b 5) message_type
    .ok ([("channel", (channel : ℚ)), (batKey, battery_low)] ++
      windReadings (b 1) (b 2) ++ msgData)
  else if channel = ch.leaf_soil then do
    let lsData ← leafSoilReadings log (b 0) (b 1) (b 2) (b 3) (b 4) (b 5)
    .ok ([("channel", (channel : ℚ)), ("bat_leaf_soil", battery_low)] ++
      lsData)
  else .error (.nameError "name raw is not defined")

/-! ## Frame parser (DATAPacket, CHANNELPacket, PacketFactory,
source lines 502-634)

Lines are modelled after the two recognizers have classified them: a
`dataLine` carries the 8 extracted hex byte pairs and the 4 trailing
decimal counters of `DATAPacket.PATTERN`, `chan13`/`chan12` carry the
integer fields of `CHANNELPacket.PATTERNv13`/`PATTERNv12`, and `info`
covers everything else (blank lines, unmatched lines, identifier
matches whose detail pattern fails), all of which produce no packet and
drop the line. -/

inductive SensorLine where
  | dataLine (bytes : List Nat) (cnts : List Int)
  | chan13 (chanIdx chanFreq freqError transmitter : Int)
  | chan12 (chanIdx chanFreq freqError : Int)
  | info
  deriving Repr, DecidableEq

/-- The driver attributes `PacketFactory` consults (`self.channels`,
`self.rain_per_tip`, `self.frequency`, `self.transm_to_store`). -/
structure DrvState where
  channels : Channels
  rain_per_tip : ℚ
  frequency : String
  transm_to_store : Int
  deriving Repr

/-- The `weewx.METRICWX` unit-system constant (external collaborator). -/
def METRICWX : ℚ := 17

/-- Source `DATAPacket.parse_text` (lines 516-537) on a matched line:
`PacketFactory._check_crc` raises `ValueError` when the CRC over the
full 8-byte frame is nonzero (lines 607-610); otherwise the payload is
decoded by `parse_raw` and the four cumulative counters are appended. -/
def DATAPacket_parse_text (log : ℚ → ℚ) (st : DrvState)
    (bytes : List Nat) (cnts : List Int) : Except PyErr Reading :=
  if crc16 bytes ≠ 0 then .error (.valueError "CRC error")
  else do
    let pkt ← parse_raw log st.channels st.rain_per_tip bytes
    .ok (pkt ++ [("curr_cnt0", (cnts.getD 0 0 : ℚ)), ("curr_cnt1", (cnts.getD 1 0 : ℚ)),
      ("curr_cnt2", (cnts.getD 2 0 : ℚ)), ("curr_cnt3", (cnts.getD 3 0 : ℚ))])

/-- The `freqError<y>` storage loop shared by both channel-report
shapes (`for y in range(0, 5): if int(m.group(1)) == y: ...`). -/
def freqErrorEntries (chanIdx freqError : Int) : Reading :=
  if 0 ≤ chanIdx ∧ chanIdx ≤ 4 then
    [("freqError" ++ toString chanIdx, (freqError : ℚ))]
  else []

/-- Source `CHANNELPacket.parse_text` (lines 546-596) on a matched
line.  `now` is `int(time.time() + 0.5)`.  An absolute frequency error
above 20000 raises `weewx.WeeWxIOError`; otherwise frequency errors are
stored only for the EU band (and, for the v13 shape, only for the
transmitter currently selected for storage). -/
def CHANNELPacket_parse_text (st : DrvState) (now : Int)
    (line : SensorLine) : Except PyErr Reading :=
  match line with
  | .chan13 chanIdx _chanFreq freqError transmitter =>
    if |freqError| > 20000 then
      .error (.weewxIOError "RESTART RTLDAVIS PROGRAM: abs freqOffset channel too big")
    else if st.frequency = "EU" then
      if transmitter = st.transm_to_store then
        .ok ([("dateTime", (now : ℚ)), ("usUnits", METRICWX)] ++
          freqErrorEntries chanIdx freqError)
      else .ok []
    else .ok []
  | .chan12 chanIdx _chanFreq freqError =>
    if |freqError| > 20000 then
      .error (.weewxIOError "RESTART RTLDAVIS PROGRAM: abs freqOffset channel too big")
    else if st.frequency = "EU" then
      .ok ([("dateTime", (now : ℚ)), ("usUnits", METRICWX)] ++
        freqErrorEntries chanIdx freqError)
    else .ok []
  | _ => .ok []

/-- Source `PacketFactory.parse_text` (lines 620-634): dispatch on the
recognizer that matched; unrecognized and blank lines yield no packet. -/
def PacketFactory_parse_text (log : ℚ → ℚ) (st : DrvState) (now : Int)
    (line : SensorLine) : Except PyErr (Option Reading) :=
  match line with
  | .dataLine bytes cnts => do
    let pkt ← DATAPacket_parse_text log st bytes cnts
    .ok (some pkt)
  | .chan13 _ _ _ _ => do
    let pkt ← CHANNELPacket_parse_text st now line
    .ok (some pkt)
  | .chan12 _ _ _ => do
    let pkt ← CHANNELPacket_parse_text st now line
    .ok (some pkt)
  | .info => .ok none

/-- Source `PacketFactory.create` (lines 612-618), as consumed by
`genLoopPackets` (lines 994-1010): parse each buffered line in order and
collect the produced packets.  An exception raised while parsing a line
propagates out of the generator: no packet is produced for that line
and the remaining lines are not processed. -/
def PacketFactory_create (log : ℚ → ℚ) (st : DrvState) (now : Int) :
    List SensorLine → Except PyErr (List Reading)
  | [] => .ok []
  | line :: rest => do
    let p ← PacketFactory_parse_text log st now line
    let ps ← PacketFactory_create log st now rest
    .ok (match p with | some pkt => pkt :: ps | none => ps)

/-! ## Rain delta (RtldavisDriver._data_to_packet, source lines 848-872) -/

/-- Source line 766: `self.rain_per_tip = 0.254 if bucket_type == 0 else 0.2`. -/
def rain_per_tip (bucket_type : Int) : ℚ :=
  if bucket_type = 0 then 0.254 else 0.2

/-- The rain-count-to-delta logic of `_data_to_packet` (lines 855-865):
difference against the previous counter, reinterpreting a negative
difference as a wrap of the 7-bit counter (`+= 128`); first observation
gives 0. -/
def rainDelta (last_rain_count : Option Int) (curr : Int) : Int :=
  let rc := match last_rain_count with
    | some l => curr - l
    | none => 0
  if rc < 0 then rc + 128 else rc

/-- The rain fields `_data_to_packet` produces: the emitted rain amount
`float(rain_count) * self.rain_per_tip` (line 866) and the updated
`last_rain_count` state (line 865). -/
def dataToPacketRain (tip : ℚ) (last_rain_count : Option Int)
    (curr : Int) : ℚ × Int :=
  ((rainDelta last_rain_count curr : ℚ) * tip, curr)

/-! ## Link-quality statistics (source lines 874-944)

The per-transmitter arrays of `self.stats` all have length 4 ("do for
the first 4 active transmitters"); they are modelled as quadruples. -/

/-- A fixed 4-slot array. -/
structure Quad (α : Type) where
  e0 : α
  e1 : α
  e2 : α
  e3 : α
  deriving Repr, DecidableEq

/-- Read slot `i` (call sites only use `i < 4`). -/
def Quad.get {α : Type} (q : Quad α) : Nat → α
  | 0 => q.e0
  | 1 => q.e1
  | 2 => q.e2
  | _ => q.e3

/-- Write slot `i` (call sites only use `i < 4`). -/
def Quad.set {α : Type} (q : Quad α) : Nat → α → Quad α
  | 0, v => { q with e0 := v }
  | 1, v => { q with e1 := v }
  | 2, v => { q with e2 := v }
  | _, v => { q with e3 := v }

/-- Build a constant quadruple (`[x] * 4`). -/
def Quad.const {α : Type} (x : α) : Quad α := ⟨x, x, x, x⟩

/-- The `self.stats` dict (source lines 875-888). -/
structure Stats where
  loop_times : List ℚ
  activeTrIds : List Nat
  activeTrIdPtrs : List Nat
  curr_ts : Int
  last_ts : Int
  curr_cnt : Quad Int
  last_cnt : Quad Int
  max_count : Quad ℚ
  count : Quad Int
  missed : Quad ℚ
  pct_good : Quad (Option ℚ)
  pct_good_all : Option ℚ
  deriving Repr, DecidableEq

/-- Source `_init_stats` (lines 874-888): the loop-time table has 9
entries, one per transmitter channel 0-7 plus `100.0` as a dummy for
the inactive-sensor sentinel id 9 minus one slot (index 8). -/
def initStats : Stats where
  loop_times := [2.5625, 2.625, 2.6875, 2.75, 2.8125, 2.875, 2.9375, 3, 100.0]
  activeTrIds := List.replicate 8 9
  activeTrIdPtrs := List.replicate 8 0
  curr_ts := 0
  last_ts := 0
  curr_cnt := Quad.const 0
  last_cnt := Quad.const 0
  max_count := Quad.const 0
  count := Quad.const 0
  missed := Quad.const 0
  pct_good := Quad.const none
  pct_good_all := none

/-- Source `_reset_stats` (lines 890-895). -/
def resetStats (s : Stats) : Stats :=
  { s with
    last_ts := s.curr_ts
    last_cnt := s.curr_cnt
    pct_good := Quad.const none
    pct_good_all := none }

/-- Source `_update_stats` (lines 897-903). -/
def updateStats (s : Stats) (c0 c1 c2 c3 : Int) : Stats :=
  { s with curr_cnt := ⟨c0, c1, c2, c3⟩ }

/-- The body of the `for i in range(0, 4)` loop of `_update_summaries`
(source lines 917-933) for one slot `i`, threading the three totals
accumulated for `pct_good_all`.  Faithful to the Python failure modes:
a missing `activeTrIds`/`loop_times` entry is an `IndexError`, and the
divisions `period // loop_time` and `100.0 * count / max_count` raise
`ZeroDivisionError` on a zero divisor. -/
def updateSlot (period : Int) (acc : Stats × Int × ℚ × ℚ) (i : Nat) :
    Except PyErr (Stats × Int × ℚ × ℚ) :=
  let s := acc.1
  let total_count := acc.2.1
  let total_missed := acc.2.2.1
  let total_max_count := acc.2.2.2
  if s.curr_cnt.get i > 0 then
    match s.activeTrIds.get? i with
    | none => .error PyErr.indexError
    | some x =>
      match s.loop_times.get? x with
      | none => .error PyErr.indexError
      | some lt =>
        if lt = 0 then .error PyErr.zeroDivisionError
        else
          let mc : ℚ := (((period : ℚ) / lt).floor : ℚ)
          let cnt := s.curr_cnt.get i - s.last_cnt.get i
          let s1 := { s with
            max_count := s.max_count.set i mc
            count := s.count.set i cnt }
          if cnt > 0 then
            if mc = 0 then .error PyErr.zeroDivisionError
            else
              let miss := mc - (cnt : ℚ)
              let pg := 100 * (cnt : ℚ) / mc
              .ok ({ s1 with
                  missed := s1.missed.set i miss
                  pct_good := s1.pct_good.set i (some pg) },
                total_count + cnt, total_missed + miss, total_max_count + mc)
          else .ok (s1, total_count, total_missed, total_max_count)
  else .ok (s, total_count, total_missed, total_max_count)

/-- Source `_update_summaries` (lines 905-944).  `now` is
`int(time.time())`.  After the per-slot loop, `pct_good_all` is
reassigned only under the guard
`total_max_count > 0 and self.stats['pct_good_all'] is not None`
(line 935). -/
def updateSummaries (s : Stats) (now : Int) : Except PyErr Stats :=
  let su := { s with curr_ts := now }
  if su.last_ts > 0 then
    let period := su.curr_ts - su.last_ts
    match updateSlot period (su, 0, 0, 0) 0 with
    | .error e => .error e
    | .ok a0 =>
      match updateSlot period a0 1 with
      | .error e => .error e
      | .ok a1 =>
        match updateSlot period a1 2 with
        | .error e => .error e
        | .ok a2 =>
          match updateSlot period a2 3 with
          | .error e => .error e
          | .ok a3 =>
            let (sf, total_count, _total_missed, total_max_count) := a3
            if total_max_count > 0 ∧ sf.pct_good_all ≠ none then
              .ok { sf with
                pct_good_all := some (100 * (total_count : ℚ) / total_max_count) }
            else .ok sf
  else .ok su

/-! ## Constructor-time configuration checks
(RtldavisDriver.__init__ and ch_to_xmit, source lines 743-846) -/

/-- Python `1 << n`: raises `ValueError` for a negative shift count. -/
def pyShl1 (n : Int) : Except PyErr Int :=
  if n < 0 then .error (.valueError "negative shift count")
  else .ok (2 ^ n.toNat)

/-- The `for i in range(0, 8)` mask loop of `ch_to_xmit`
(lines 838-845), filling `activeTrIds` and `activeTrIdPtrs`. -/
def xmitMaskLoop (transmitters : Int) :
    Nat → (List Nat × List Nat × Nat) → (List Nat × List Nat × Nat)
  | 0, acc => acc
  | fuel + 1, (trIds, trPtrs, trIdCount) =>
    let i := 8 - (fuel + 1)
    if transmitters.toNat &&& (1 <<< i) ≠ 0 then
      xmitMaskLoop transmitters fuel
        (trIds.set trIdCount i, trPtrs.set i trIdCount, trIdCount + 1)
    else
      xmitMaskLoop transmitters fuel (trIds, trPtrs, trIdCount)

/-- Source `ch_to_xmit` (lines 821-846): build the transmitter bitmask
from the five role channels (only a nonzero ISS channel is mandatory;
the other roles are skipped when 0) and collect the active transmitter
ids.  Returns `(transmitters, trIdCount, activeTrIds, activeTrIdPtrs)`. -/
def ch_to_xmit (iss anemometer leaf_soil temp_hum_1 temp_hum_2 : Int) :
    Except PyErr (Int × Nat × List Nat × List Nat) := do
  let t0 ← pyShl1 (iss - 1)
  let t1 ← if anemometer ≠ 0 then do
      let v ← pyShl1 (anemometer - 1); pure (t0 + v)
    else pure t0
  let t2 ← if leaf_soil ≠ 0 then do
      let v ← pyShl1 (leaf_soil - 1); pure (t1 + v)
    else pure t1
  let t3 ← if temp_hum_1 ≠ 0 then do
      let v ← pyShl1 (temp_hum_1 - 1); pure (t2 + v)
    else pure t2
  let t4 ← if temp_hum_2 ≠ 0 then do
      let v ← pyShl1 (temp_hum_2 - 1); pure (t3 + v)
    else pure t3
  let (trIds, trPtrs, trIdCount) :=
    xmitMaskLoop t4 8 (List.replicate 8 9, List.replicate 8 0, 0)
  .ok (t4, trIdCount, trIds, trPtrs)

/-- The configuration values `RtldavisDriver.__init__` validates. -/
structure DrvConfig where
  bucket_type : Int
  frequency : String
  iss : Int
  anemometer : Int
  leaf_soil : Int
  temp_hum_1 : Int
  temp_hum_2 : Int
  deriving Repr, DecidableEq

/-- The validation/derivation sequence of `RtldavisDriver.__init__`
(lines 762-814) up to the point where the external process is started
(line 814): bucket type check (line 764), frequency check (line 783),
wind-channel derivation (lines 793-796) and `ch_to_xmit` (line 804),
in source order.  Returns the derived
`(rain_per_tip, wind_channel, transmitters, tr_count, activeTrIds)`. -/
def driverInitChecks (c : DrvConfig) :
    Except PyErr (ℚ × Int × Int × Nat × List Nat) := do
  if c.bucket_type ≠ 0 ∧ c.bucket_type ≠ 1 then
    throw (PyErr.valueError "unsupported rain bucket type")
  else
    let tip := rain_per_tip c.bucket_type
    if c.frequency ≠ "US" ∧ c.frequency ≠ "NZ" ∧ c.frequency ≠ "EU" then
      throw (PyErr.valueError "invalid frequency")
    else
      let wind_channel := if c.anemometer = 0 then c.iss else c.anemometer
      let x ← ch_to_xmit c.iss c.anemometer c.leaf_soil c.temp_hum_1 c.temp_hum_2
      .ok (tip, wind_channel, x.1, x.2.1, x.2.2.1)

/-! ## Helper lemmas about Quad and the statistics update -/

theorem Quad.get_set_self {α : Type} (q : Quad α) (i : Nat) (hi : i < 4) (v : α) :
    (q.set i v).get i = v := by
  match i, hi with
  | 0, _ => rfl
  | 1, _ => rfl
  | 2, _ => rfl
  | 3, _ => rfl

theorem Quad.get_set_ne {α : Type} (q : Quad α) (i j : Nat) (hi : i < 4)
    (hj : j < 4) (hne : i ≠ j) (v : α) : (q.set j v).get i = q.get i := by
  match i, hi, j, hj, hne with
  | 0, _, 1, _, _ => rfl
  | 0, _, 2, _, _ => rfl
  | 0, _, 3, _, _ => rfl
  | 1, _, 0, _, _ => rfl
  | 1, _, 2, _, _ => rfl
  | 1, _, 3, _, _ => rfl
  | 2, _, 0, _, _ => rfl
  | 2, _, 1, _, _ => rfl
  | 2, _, 3, _, _ => rfl
  | 3, _, 0, _, _ => rfl
  | 3, _, 1, _, _ => rfl
  | 3, _, 2, _, _ => rfl
  | 0, _, 0, _, hne => exact absurd rfl hne
  | 1, _, 1, _, hne => exact absurd rfl hne
  | 2, _, 2, _, hne => exact absurd rfl hne
  | 3, _, 3, _, hne => exact absurd rfl hne

/-- A successful `updateSlot` on slot `j` leaves all the inputs of the
computation (counters, ids, loop times, timestamps, `pct_good_all`)
unchanged, and does not touch the outputs of any other slot. -/
theorem updateSlot_fields (period : Int) (s : Stats) (tc : Int) (tm tmc : ℚ)
    (j : Nat) (out : Stats × Int × ℚ × ℚ) (hj : j < 4)
    (h : updateSlot period (s, tc, tm, tmc) j = .ok out) :
    out.1.curr_cnt = s.curr_cnt ∧ out.1.last_cnt = s.last_cnt ∧
    out.1.activeTrIds = s.activeTrIds ∧ out.1.loop_times = s.loop_times ∧
    out.1.curr_ts = s.curr_ts ∧ out.1.last_ts = s.last_ts ∧
    out.1.pct_good_all = s.pct_good_all ∧
    (∀ i, i < 4 → i ≠ j → out.1.max_count.get i = s.max_count.get i ∧
      out.1.count.get i = s.count.get i ∧ out.1.missed.get i = s.missed.get i ∧
      out.1.pct_good.get i = s.pct_good.get i) := by
  unfold updateSlot at h
  dsimp only at h
  split at h
  · split at h
    · exact absurd h (by simp)
    · split at h
      · exact absurd h (by simp)
      · split at h
        · exact absurd h (by simp)
        · split at h
          · split at h
            · exact absurd h (by simp)
            · cases h
              refine ⟨rfl, rfl, rfl, rfl, rfl, rfl, rfl, fun i hi hij => ?_⟩
              exact ⟨Quad.get_set_ne _ i j hi hj hij _,
                Quad.get_set_ne _ i j hi hj hij _,
                Quad.get_set_ne _ i j hi hj hij _,
                Quad.get_set_ne _ i j hi hj hij _⟩
          · cases h
            refine ⟨rfl, rfl, rfl, rfl, rfl, rfl, rfl, fun i hi hij => ?_⟩
            exact ⟨Quad.get_set_ne _ i j hi hj hij _,
              Quad.get_set_ne _ i j hi hj hij _, rfl, rfl⟩
  · cases h
    exact ⟨rfl, rfl, rfl, rfl, rfl, rfl, rfl, fun i hi hij => ⟨rfl, rfl, rfl, rfl⟩⟩

/-- A successful `updateSlot` on slot `j` with a positive cumulative
count computes exactly the quantities of the source loop body:
`max_count = period // loop_time`, `count = curr_cnt - last_cnt`, and,
only when `count > 0`, `missed = max_count - count` and
`pct_good = 100 * count / max_count`. -/
theorem updateSlot_ok_spec (period : Int) (s : Stats) (tc : Int) (tm tmc : ℚ)
    (j : Nat) (out : Stats × Int × ℚ × ℚ) (hj : j < 4)
    (h : updateSlot period (s, tc, tm, tmc) j = .ok out)
    (hcc : s.curr_cnt.get j > 0) (x : Nat) (lt : ℚ)
    (hx : s.activeTrIds.get? j = some x)
    (hlt : s.loop_times.get? x = some lt) :
    out.1.max_count.get j = (((period : ℚ) / lt).floor : ℚ) ∧
    out.1.count.get j = s.curr_cnt.get j - s.last_cnt.get j ∧
    (s.curr_cnt.get j - s.last_cnt.get j > 0 →
      (((period : ℚ) / lt).floor : ℚ) ≠ 0 ∧
      out.1.missed.get j = (((period : ℚ) / lt).floor : ℚ) -
        ((s.curr_cnt.get j - s.last_cnt.get j : Int) : ℚ) ∧
      out.1.pct_good.get j =
        some (100 * ((s.curr_cnt.get j - s.last_cnt.get j : Int) : ℚ) /
          (((period : ℚ) / lt).floor : ℚ))) ∧
    (¬(s.curr_cnt.get j - s.last_cnt.get j > 0) →
      out.1.missed.get j = s.missed.get j ∧
      out.1.pct_good.get j = s.pct_good.get j) := by
  unfold updateSlot at h
  dsimp only at h
  rw [if_pos hcc, hx] at h
  dsimp only at h
  rw [hlt] at h
  dsimp only at h
  split at h
  · exact absurd h (by simp)
  · split at h
    · split at h
      · exact absurd h (by simp)
      · rename_i hcnt hmc
        cases h
        refine ⟨?_, ?_, fun _ => ⟨hmc, ?_, ?_⟩, fun hc => absurd hcnt hc⟩
        · exact Quad.get_set_self _ j hj _
        · exact Quad.get_set_self _ j hj _
        · exact Quad.get_set_self _ j hj _
        · exact Quad.get_set_self _ j hj _
    · rename_i hcnt
      cases h
      refine ⟨?_, ?_, fun hc => absurd hc hcnt, fun _ => ⟨rfl, rfl⟩⟩
      · exact Quad.get_set_self _ j hj _
      · exact Quad.get_set_self _ j hj _

/-- Navigation through a successful `updateSummaries` at an archive
boundary: for each slot `i < 4` there is an intermediate accumulator
that still carries the original inputs (and slot `i`'s old outputs),
slot `i`'s `updateSlot` ran on it successfully, and the outputs it
wrote to slot `i` survive unchanged into the final state. -/
theorem updateSummaries_slot (s : Stats) (now : Int) (s' : Stats) (i : Nat)
    (hup : updateSummaries s now = .ok s') (hb : s.last_ts > 0) (hi : i < 4) :
    ∃ t : Stats, ∃ tc : Int, ∃ tm tmc : ℚ, ∃ out : Stats × Int × ℚ × ℚ,
      t.curr_cnt = s.curr_cnt ∧ t.last_cnt = s.last_cnt ∧
      t.activeTrIds = s.activeTrIds ∧ t.loop_times = s.loop_times ∧
      t.missed.get i = s.missed.get i ∧ t.pct_good.get i = s.pct_good.get i ∧
      updateSlot (now - s.last_ts) (t, tc, tm, tmc) i = .ok out ∧
      out.1.max_count.get i = s'.max_count.get i ∧
      out.1.count.get i = s'.count.get i ∧
      out.1.missed.get i = s'.missed.get i ∧
      out.1.pct_good.get i = s'.pct_good.get i := by
  unfold updateSummaries at hup
  dsimp only at hup
  rw [if_pos hb] at hup
  cases h0 : updateSlot (now - s.last_ts) ({ s with curr_ts := now }, 0, 0, 0) 0 with
  | error e => rw [h0] at hup; exact absurd hup (by simp)
  | ok a0 =>
    rw [h0] at hup
    dsimp only at hup
    obtain ⟨t0, c0, m0, q0⟩ := a0
    cases h1 : updateSlot (now - s.last_ts) (t0, c0, m0, q0) 1 with
    | error e => rw [h1] at hup; exact absurd hup (by simp)
    | ok a1 =>
      rw [h1] at hup
      dsimp only at hup
      obtain ⟨t1, c1, m1, q1⟩ := a1
      cases h2 : updateSlot (now - s.last_ts) (t1, c1, m1, q1) 2 with
      | error e => rw [h2] at hup; exact absurd hup (by simp)
      | ok a2 =>
        rw [h2] at hup
        dsimp only at hup
        obtain ⟨t2, c2, m2, q2⟩ := a2
        cases h3 : updateSlot (now - s.last_ts) (t2, c2, m2, q2) 3 with
        | error e => rw [h3] at hup; exact absurd hup (by simp)
        | ok a3 =>
          rw [h3] at hup
          dsimp only at hup
          obtain ⟨t3, c3, m3, q3⟩ := a3
          obtain ⟨f0cc, f0lc, f0ids, f0lts, _, _, f0pga, f0oth⟩ :=
            updateSlot_fields _ _ _ _ _ 0 _ (by omega) h0
          obtain ⟨f1cc, f1lc, f1ids, f1lts, _, _, f1pga, f1oth⟩ :=
            updateSlot_fields _ _ _ _ _ 1 _ (by omega) h1
          obtain ⟨f2cc, f2lc, f2ids, f2lts, _, _, f2pga, f2oth⟩ :=
            updateSlot_fields _ _ _ _ _ 2 _ (by omega) h2
          obtain ⟨f3cc, f3lc, f3ids, f3lts, _, _, f3pga, f3oth⟩ :=
            updateSlot_fields _ _ _ _ _ 3 _ (by omega) h3
          have hsf : s'.max_count = t3.max_count ∧ s'.count = t3.count ∧
              s'.missed = t3.missed ∧ s'.pct_good = t3.pct_good := by
            split at hup <;> cases hup <;> exact ⟨rfl, rfl, rfl, rfl⟩
          obtain ⟨hsmx, hscn, hsms, hspg⟩ := hsf
          interval_cases i
          · refine ⟨{ s with curr_ts := now }, 0, 0, 0, (t0, c0, m0, q0),
              rfl, rfl, rfl, rfl, rfl, rfl, h0, ?_, ?_, ?_, ?_⟩
            · rw [hsmx, (f3oth 0 (by omega) (by omega)).1,
                (f2oth 0 (by omega) (by omega)).1, (f1oth 0 (by omega) (by omega)).1]
            · rw [hscn, (f3oth 0 (by omega) (by omega)).2.1,
                (f2oth 0 (by omega) (by omega)).2.1, (f1oth 0 (by omega) (by omega)).2.1]
            · rw [hsms, (f3oth 0 (by omega) (by omega)).2.2.1,
                (f2oth 0 (by omega) (by omega)).2.2.1, (f1oth 0 (by omega) (by omega)).2.2.1]
            · rw [hspg, (f3oth 0 (by omega) (by omega)).2.2.2,
                (f2oth 0 (by omega) (by omega)).2.2.2, (f1oth 0 (by omega) (by omega)).2.2.2]
          · refine ⟨t0, c0, m0, q0, (t1, c1, m1, q1),
              f0cc, f0lc, f0ids, f0lts,
              (f0oth 1 (by omega) (by omega)).2.2.1,
              (f0oth 1 (by omega) (by omega)).2.2.2, h1, ?_, ?_, ?_, ?_⟩
            · rw [hsmx, (f3oth 1 (by omega) (by omega)).1,
                (f2oth 1 (by omega) (by omega)).1]
            · rw [hscn, (f3oth 1 (by omega) (by omega)).2.1,
                (f2oth 1 (by omega) (by omega)).2.1]
            · rw [hsms, (f3oth 1 (by omega) (by omega)).2.2.1,
                (f2oth 1 (by omega) (by omega)).2.2.1]
            · rw [hspg, (f3oth 1 (by omega) (by omega)).2.2.2,
                (f2oth 1 (by omega) (by omega)).2.2.2]
          · refine ⟨t1, c1, m1, q1, (t2, c2, m2, q2),
              f1cc.trans f0cc, f1lc.trans f0lc, f1ids.trans f0ids, f1lts.trans f0lts,
              ((f1oth 2 (by omega) (by omega)).2.2.1).trans
                (f0oth 2 (by omega) (by omega)).2.2.1,
              ((f1oth 2 (by omega) (by omega)).2.2.2).trans
                (f0oth 2 (by omega) (by omega)).2.2.2, h2, ?_, ?_, ?_, ?_⟩
            · rw [hsmx, (f3oth 2 (by omega) (by omega)).1]
            · rw [hscn, (f3oth 2 (by omega) (by omega)).2.1]
            · rw [hsms, (f3oth 2 (by omega) (by omega)).2.2.1]
            · rw [hspg, (f3oth 2 (by omega) (by omega)).2.2.2]
          · refine ⟨t2, c2, m2, q2, (t3, c3, m3, q3),
              (f2cc.trans f1cc).trans f0cc, (f2lc.trans f1lc).trans f0lc,
              (f2ids.trans f1ids).trans f0ids, (f2lts.trans f1lts).trans f0lts,
              (((f2oth 3 (by omega) (by omega)).2.2.1).trans
                (f1oth 3 (by omega) (by omega)).2.2.1).trans
                (f0oth 3 (by omega) (by omega)).2.2.1,
              (((f2oth 3 (by omega) (by omega)).2.2.2).trans
                (f1oth 3 (by omega) (by omega)).2.2.2).trans
                (f0oth 3 (by omega) (by omega)).2.2.2, h3, ?_, ?_, ?_, ?_⟩
            · rw [hsmx]
            · rw [hscn]
            · rw [hsms]
            · rw [hspg]

/-- After any successful `updateSummaries` starting from a state whose
`pct_good_all` is the unset sentinel, `pct_good_all` is still unset:
the guard on line 935 requires `pct_good_all is not None` before it
would ever assign it. -/
theorem updateSummaries_pga (s : Stats) (now : Int) (s' : Stats)
    (hup : updateSummaries s now = .ok s') (h0 : s.pct_good_all = none) :
    s'.pct_good_all = none := by
  unfold updateSummaries at hup
  dsimp only at hup
  split at hup
  · cases ha0 : updateSlot (now - s.last_ts) ({ s with curr_ts := now }, 0, 0, 0) 0 with
    | error e => rw [ha0] at hup; exact absurd hup (by simp)
    | ok a0 =>
      rw [ha0] at hup
      dsimp only at hup
      obtain ⟨t0, c0, m0, q0⟩ := a0
      cases ha1 : updateSlot (now - s.last_ts) (t0, c0, m0, q0) 1 with
      | error e => rw [ha1] at hup; exact absurd hup (by simp)
      | ok a1 =>
        rw [ha1] at hup
        dsimp only at hup
        obtain ⟨t1, c1, m1, q1⟩ := a1
        cases ha2 : updateSlot (now - s.last_ts) (t1, c1, m1, q1) 2 with
        | error e => rw [ha2] at hup; exact absurd hup (by simp)
        | ok a2 =>
          rw [ha2] at hup
          dsimp only at hup
          obtain ⟨t2, c2, m2, q2⟩ := a2
          cases ha3 : updateSlot (now - s.last_ts) (t2, c2, m2, q2) 3 with
          | error e => rw [ha3] at hup; exact absurd hup (by simp)
          | ok a3 =>
            rw [ha3] at hup
            dsimp only at hup
            obtain ⟨t3, c3, m3, q3⟩ := a3
            have hnone : t3.pct_good_all = none := by
              have p0 := (updateSlot_fields _ _ _ _ _ 0 _ (by omega) ha0).2.2.2.2.2.2.1
              have p1 := (updateSlot_fields _ _ _ _ _ 1 _ (by omega) ha1).2.2.2.2.2.2.1
              have p2 := (updateSlot_fields _ _ _ _ _ 2 _ (by omega) ha2).2.2.2.2.2.2.1
              have p3 := (updateSlot_fields _ _ _ _ _ 3 _ (by omega) ha3).2.2.2.2.2.2.1
              rw [p3, p2, p1, p0]
              exact h0
            split at hup
            · rename_i hguard
              exact absurd hnone hguard.2
            · cases hup
              exact hnone
  · cases hup
    exact h0

/-! ## Concrete fixtures used by the theorems below -/

/-- The default channel configuration (only the ISS on channel 1). -/
def defaultChannels : Channels := ⟨1, 0, 0, 0, 0⟩

/-- A driver state with the default channels, bucket type 1 and the EU
band. -/
def euState : DrvState := ⟨defaultChannels, 0.2, "EU", 0⟩

/-- The rain-message example from the source comments (line 1266),
`E0 00 00 05 05 00 9F 3D`, whose CRC over all 8 bytes is 0. -/
def goodFrame : List Nat := [0xE0, 0x00, 0x00, 0x05, 0x05, 0x00, 0x9F, 0x3D]

/-- The same frame with one bit of the last byte flipped, so that the
CRC no longer checks out. -/
def corruptFrame : List Nat := [0xE0, 0x00, 0x00, 0x05, 0x05, 0x00, 0x9F, 0x3C]

/-! ## C1: CRC failure handling -/

/-- C1 (counterexample).  The claim states that a data-packet line with
a failing CRC is dropped as a reported, non-fatal decode failure and
that processing of subsequent lines continues.  On the concrete batch
`[corrupt line, good line]` the packet factory instead propagates the
`ValueError` that `PacketFactory._check_crc` raises: it produces no
packets at all, although the second line alone decodes to a packet
(so processing demonstrably did not continue past the corrupt line). -/
theorem crc_failure_aborts_batch_cex :
    crc16 corruptFrame = 4129 ∧
    PacketFactory_create (fun _ => 0) euState 1000
      [.dataLine corruptFrame [5, 3, 2, 1], .dataLine goodFrame [5, 3, 2, 1]] =
      .error (.valueError "CRC error") ∧
    PacketFactory_create (fun _ => 0) euState 1000
      [.dataLine goodFrame [5, 3, 2, 1]] =
      .ok [[("channel", 1), ("bat_iss", 0), ("rain_count", 5),
        ("curr_cnt0", 5), ("curr_cnt1", 3), ("curr_cnt2", 2), ("curr_cnt3", 1)]] := by
  refine ⟨by rfl, by rfl, by rfl⟩

/-- C1 (amended).  For every data-packet line whose 8 extracted bytes
fail the CRC check, the frame parser raises `ValueError`: no sensor
reading is emitted for that line, but the offending line is not merely
dropped — the exception propagates out of `PacketFactory.create`
uncaught, so none of the subsequent lines of the batch is processed. -/
theorem crc_failure_raises (log : ℚ → ℚ) (st : DrvState) (now : Int)
    (bytes : List Nat) (cnts : List Int) (rest : List SensorLine)
    (h : crc16 bytes ≠ 0) :
    PacketFactory_create log st now (.dataLine bytes cnts :: rest) =
      .error (.valueError "CRC error") := by
  simp only [PacketFactory_create, PacketFactory_parse_text, DATAPacket_parse_text,
    if_pos h]
  rfl

/-- C1 (witness for the amended theorem): the concrete corrupt frame
has nonzero CRC and aborts its batch. -/
theorem crc_failure_raises_witness :
    PacketFactory_create (fun _ => 0) euState 1000
      [.dataLine corruptFrame [5, 3, 2, 1], .dataLine goodFrame [5, 3, 2, 1]] =
      .error (.valueError "CRC error") :=
  crc_failure_raises (fun _ => 0) euState 1000 corruptFrame [5, 3, 2, 1]
    [.dataLine goodFrame [5, 3, 2, 1]] (by decide)

/-! ## C2: unknown channel in parse_raw -/

/-- C2.  The claim states that a validated packet whose channel matches
no configured role yields an anomaly report and an empty reading and
never raises.  In the source the final `else` branch of `parse_raw`
interpolates the unbound name `raw` into its log message, which raises
`NameError`.  Concretely: with the default configuration (ISS on
channel 1), the frame byte `0x02` selects channel 3, no role matches,
and the call raises instead of returning. -/
theorem parse_raw_unknown_channel_raises :
    parse_raw (fun _ => 0) defaultChannels 0.2 [0x02, 0, 0, 0, 0, 0, 0, 0] =
      .error (.nameError "name raw is not defined") := by
  rfl

/-! ## C4: rain tip counter delta -/

/-- C4: for consecutive decoded rain-tip counter readings, the delta is
`curr - last` when the counter did not decrease and `curr - last + 128`
on wraparound, the emitted rain amount is the delta times
`rain_per_tip` (0.254 mm for bucket type 0, 0.2 mm for bucket type 1),
and the concrete wrap 120 then 5 gives 13 tips. -/
theorem rain_delta_wraparound (bucket l c : Int) :
    rainDelta (some l) c = (if l ≤ c then c - l else c - l + 128) ∧
    (dataToPacketRain (rain_per_tip bucket) (some l) c).1 =
      (rainDelta (some l) c : ℚ) *
        (if bucket = 0 then 0.254 else 0.2) ∧
    rainDelta (some 120) 5 = 13 := by
  refine ⟨?_, ?_, by decide⟩
  · simp only [rainDelta]
    split <;> split <;> omega
  · rfl

/-! ## C5, C6, C7: link-quality statistics -/

/-- Archive-boundary fixture: one active transmitter on channel id 0
(loop time 2.5625 s), 100 messages since the previous boundary 300 s
ago. -/
def linkStatsExample : Stats :=
  { initStats with
    last_ts := 100
    activeTrIds := [0, 9, 9, 9, 9, 9, 9, 9]
    curr_cnt := ⟨100, 0, 0, 0⟩ }

/-- The state `updateSummaries` produces from `linkStatsExample` at
time 400: `max_count = 300 // 2.5625 = 117`, `count = 100`,
`missed = 17`, `pct_good = 10000/117` (about 85.47). -/
def linkStatsExampleResult : Stats :=
  { linkStatsExample with
    curr_ts := 400
    max_count := ⟨117, 0, 0, 0⟩
    count := ⟨100, 0, 0, 0⟩
    missed := ⟨17, 0, 0, 0⟩
    pct_good := ⟨some (10000 / 117), none, none, none⟩ }

/-- The per-slot values a successful archive-boundary update leaves in
the final state (shared backbone of the C5 and C7 theorems). -/
theorem updateSummaries_slot_values (s : Stats) (now : Int) (s' : Stats)
    (i x : Nat) (lt : ℚ)
    (hup : updateSummaries s now = .ok s')
    (hb : s.last_ts > 0) (hi : i < 4)
    (hcc : s.curr_cnt.get i > 0)
    (hx : s.activeTrIds.get? i = some x)
    (hlt : s.loop_times.get? x = some lt) :
    s'.max_count.get i = ((((now - s.last_ts : Int) : ℚ) / lt).floor : ℚ) ∧
    s'.count.get i = s.curr_cnt.get i - s.last_cnt.get i ∧
    (s.curr_cnt.get i - s.last_cnt.get i > 0 →
      s'.missed.get i = s'.max_count.get i - ((s'.count.get i : Int) : ℚ) ∧
      s'.pct_good.get i =
        some (100 * ((s.curr_cnt.get i - s.last_cnt.get i : Int) : ℚ) /
          ((((now - s.last_ts : Int) : ℚ) / lt).floor : ℚ))) ∧
    (¬(s.curr_cnt.get i - s.last_cnt.get i > 0) →
      s'.pct_good.get i = s.pct_good.get i) := by
  obtain ⟨t, tc, tm, tmc, out, htcc, htlc, htids, htlts, htms, htpg, hslot,
    hmx, hcn, hms, hpg⟩ := updateSummaries_slot s now s' i hup hb hi
  have hcc' : t.curr_cnt.get i > 0 := by rw [htcc]; exact hcc
  have hx' : t.activeTrIds.get? i = some x := by rw [htids]; exact hx
  have hlt' : t.loop_times.get? x = some lt := by rw [htlts]; exact hlt
  obtain ⟨omx, ocn, opos, oneg⟩ :=
    updateSlot_ok_spec _ t tc tm tmc i _ hi hslot hcc' x lt hx' hlt'
  rw [htcc, htlc] at ocn opos oneg
  refine ⟨by rw [← hmx, omx], by rw [← hcn, ocn], fun hcnt => ?_, fun hcnt => ?_⟩
  · obtain ⟨hmcne, hmiss, hpgood⟩ := opos hcnt
    constructor
    · rw [← hms, hmiss, ← hmx, omx, ← hcn, ocn]
    · rw [← hpg, hpgood]
  · obtain ⟨hmiss, hpgood⟩ := oneg hcnt
    rw [← hpg, hpgood, htpg]

/-- C5: at every archive-period boundary after the first, each of the
up-to-4 tracked transmitter slots with a positive cumulative count gets
`max_count = period // loop_time[channel]` (floor division against the
9-entry loop-time table entry of its active transmitter id),
`count = curr_cnt - last_cnt`, and, only when `count > 0`,
`missed = max_count - count` and `pct_good = 100 * count / max_count`;
when `count ≤ 0`, `pct_good` is left as it was (unset). -/
theorem link_quality_per_transmitter (s : Stats) (now : Int) (s' : Stats)
    (i x : Nat) (lt : ℚ)
    (hup : updateSummaries s now = .ok s')
    (hb : s.last_ts > 0) (hi : i < 4)
    (hcc : s.curr_cnt.get i > 0)
    (hx : s.activeTrIds.get? i = some x)
    (hlt : s.loop_times.get? x = some lt) :
    s'.max_count.get i = ((((now - s.last_ts : Int) : ℚ) / lt).floor : ℚ) ∧
    s'.count.get i = s.curr_cnt.get i - s.last_cnt.get i ∧
    (s.curr_cnt.get i - s.last_cnt.get i > 0 →
      s'.missed.get i = s'.max_count.get i - ((s'.count.get i : Int) : ℚ) ∧
      s'.pct_good.get i =
        some (100 * ((s.curr_cnt.get i - s.last_cnt.get i : Int) : ℚ) /
          ((((now - s.last_ts : Int) : ℚ) / lt).floor : ℚ))) ∧
    (¬(s.curr_cnt.get i - s.last_cnt.get i > 0) →
      s'.pct_good.get i = s.pct_good.get i) :=
  updateSummaries_slot_values s now s' i x lt hup hb hi hcc hx hlt

/-- C5 (witness): the concrete example of the spec — period 300 s,
loop time 2.5625 s and count 100 give `max_count = 117`, `missed = 17`
and `pct_good = 10000/117` (about 85.47). -/
theorem link_quality_per_transmitter_witness :
    linkStatsExampleResult.max_count.get 0 = 117 ∧
    linkStatsExampleResult.count.get 0 = 100 ∧
    linkStatsExampleResult.missed.get 0 =
      linkStatsExampleResult.max_count.get 0 -
        ((linkStatsExampleResult.count.get 0 : Int) : ℚ) ∧
    linkStatsExampleResult.pct_good.get 0 = some (10000 / 117) := by
  obtain ⟨hmx, hcn, hpos, _⟩ := link_quality_per_transmitter
    linkStatsExample 400 linkStatsExampleResult 0 0 2.5625
    (by rfl) (by decide) (by decide) (by decide) (by rfl) (by rfl)
  obtain ⟨hms, hpg⟩ := hpos (by decide)
  exact ⟨by rw [hmx]; rfl, by rw [hcn]; rfl, hms, by rw [hpg]; rfl⟩

/-- C6.  The claim states that at every boundary with a positive total
`max_count` the tracker sets the global `pct_good_all` to
`100 * (sum of counts) / (sum of max_counts)`.  The code can never do
so: the assignment on line 936 is guarded by
`total_max_count > 0 and self.stats['pct_good_all'] is not None`, but
`pct_good_all` is `None` from `_init_stats` and is reset to `None` by
`_reset_stats` after every boundary, so the guard is always false and
`pct_good_all` remains the unset sentinel forever. -/
theorem pct_good_all_never_set (s : Stats) (now : Int) (s' : Stats)
    (hup : updateSummaries s now = .ok s') (h0 : s.pct_good_all = none) :
    s'.pct_good_all = none ∧ initStats.pct_good_all = none ∧
    (∀ t : Stats, (resetStats t).pct_good_all = none) :=
  ⟨updateSummaries_pga s now s' hup h0, rfl, fun _ => rfl⟩

/-- C6 (witness): at the concrete boundary of `linkStatsExample` —
where the total max_count 117 is positive — `pct_good_all` still comes
out unset. -/
theorem pct_good_all_never_set_witness :
    linkStatsExampleResult.pct_good_all = none :=
  (pct_good_all_never_set linkStatsExample 400 linkStatsExampleResult
    (by rfl) (by rfl)).1

/-- Archive-boundary fixture in which the transmitter delivered more
messages (200) than the theoretical maximum for the period (117). -/
def overcountStats : Stats :=
  { initStats with
    last_ts := 100
    activeTrIds := [0, 9, 9, 9, 9, 9, 9, 9]
    curr_cnt := ⟨200, 0, 0, 0⟩ }

/-- C7 (counterexample).  The claim states that after every
archive-boundary update all set `pct_good` values lie between 0 and
100.  From `overcountStats` (count 200 against max_count 117 — nothing
in the code bounds the received count by the theoretical maximum) the
update succeeds and sets `pct_good = 20000/117`, which is above 100. -/
theorem pct_good_exceeds_100_cex :
    (updateSummaries overcountStats 400).map (fun t => t.pct_good.get 0) =
      .ok (some (20000 / 117)) ∧
    ¬((20000 / 117 : ℚ) ≤ 100) :=
  ⟨by rfl, by decide⟩

/-- C7 (amended): after every successful archive-boundary update, for
every tracked slot with positive cumulative count and positive period
count, `missed = max_count - count` holds exactly as claimed, and the
set `pct_good` equals `100 * count / max_count` — which lies in (0,100]
under the additional assumption `count ≤ max_count` (the code does not
enforce that assumption, as the counterexample shows); the global
`pct_good_all` never leaves the unset sentinel. -/
theorem link_quality_invariant_amended (s : Stats) (now : Int) (s' : Stats)
    (i x : Nat) (lt : ℚ)
    (hup : updateSummaries s now = .ok s')
    (hb : s.last_ts > 0) (hi : i < 4)
    (hcc : s.curr_cnt.get i > 0)
    (hx : s.activeTrIds.get? i = some x)
    (hlt : s.loop_times.get? x = some lt)
    (hcnt : s.curr_cnt.get i - s.last_cnt.get i > 0) :
    s'.missed.get i = s'.max_count.get i - ((s'.count.get i : Int) : ℚ) ∧
    (∃ pg, s'.pct_good.get i = some pg ∧
      pg = 100 * ((s'.count.get i : Int) : ℚ) / s'.max_count.get i ∧
      (((s'.count.get i : Int) : ℚ) ≤ s'.max_count.get i → 0 < pg ∧ pg ≤ 100)) ∧
    (s.pct_good_all = none → s'.pct_good_all = none) := by
  obtain ⟨hmx, hcn, hpos, _⟩ :=
    updateSummaries_slot_values s now s' i x lt hup hb hi hcc hx hlt
  obtain ⟨hms, hpg⟩ := hpos hcnt
  refine ⟨hms, ⟨100 * ((s'.count.get i : Int) : ℚ) / s'.max_count.get i,
    ?_, rfl, fun hle => ?_⟩, fun h0 => updateSummaries_pga s now s' hup h0⟩
  · rw [hpg, hcn, hmx]
  · have hcq : (0 : ℚ) < ((s'.count.get i : Int) : ℚ) := by
      rw [hcn]
      exact_mod_cast hcnt
    have hmq : (0 : ℚ) < s'.max_count.get i := lt_of_lt_of_le hcq hle
    constructor
    · positivity
    · rw [div_le_iff₀ hmq]
      linarith

/-- C7 (witness for the amended theorem): in the concrete boundary
update of `linkStatsExample` (count 100 within the theoretical maximum
117) the missed identity holds and the set `pct_good` lies in (0,100]. -/
theorem link_quality_invariant_amended_witness :
    linkStatsExampleResult.missed.get 0 =
      linkStatsExampleResult.max_count.get 0 -
        ((linkStatsExampleResult.count.get 0 : Int) : ℚ) ∧
    ∃ pg, linkStatsExampleResult.pct_good.get 0 = some pg ∧
      0 < pg ∧ pg ≤ 100 := by
  obtain ⟨hms, ⟨pg, hpg, _, hbound⟩, _⟩ := link_quality_invariant_amended
    linkStatsExample 400 linkStatsExampleResult 0 0 2.5625
    (by rfl) (by decide) (by decide) (by decide) (by rfl) (by rfl) (by decide)
  exact ⟨hms, pg, hpg, hbound (by decide)⟩

/-- C8: for both channel-report shapes, an absolute frequency error
above the fixed threshold 20000 raises `weewx.WeeWxIOError` (the
driver's "restart the rtldavis program" condition), which is a
different exception class from the `ValueError` used for ordinary
decode failures; an absolute frequency error at or below 20000 parses
to an ordinary packet. -/
theorem freq_error_threshold (st : DrvState) (now chanIdx chanFreq e tr : Int) :
    (|e| > 20000 →
      CHANNELPacket_parse_text st now (.chan13 chanIdx chanFreq e tr) =
        .error (.weewxIOError
          "RESTART RTLDAVIS PROGRAM: abs freqOffset channel too big") ∧
      CHANNELPacket_parse_text st now (.chan12 chanIdx chanFreq e) =
        .error (.weewxIOError
          "RESTART RTLDAVIS PROGRAM: abs freqOffset channel too big")) ∧
    (|e| ≤ 20000 →
      (∃ p, CHANNELPacket_parse_text st now (.chan13 chanIdx chanFreq e tr) = .ok p) ∧
      (∃ p, CHANNELPacket_parse_text st now (.chan12 chanIdx chanFreq e) = .ok p)) ∧
    (∀ m m', PyErr.weewxIOError m ≠ PyErr.valueError m') := by
  refine ⟨fun h => ⟨?_, ?_⟩, fun h => ⟨?_, ?_⟩, fun m m' => by simp⟩
  · simp [CHANNELPacket_parse_text, h]
  · simp [CHANNELPacket_parse_text, h]
  · have h' : ¬(|e| > 20000) := not_lt.2 h
    simp only [CHANNELPacket_parse_text, h', if_false]
    split
    · split
      · exact ⟨_, rfl⟩
      · exact ⟨_, rfl⟩
    · exact ⟨_, rfl⟩
  · have h' : ¬(|e| > 20000) := not_lt.2 h
    simp only [CHANNELPacket_parse_text, h', if_false]
    split
    · exact ⟨_, rfl⟩
    · exact ⟨_, rfl⟩

/-- C8 (witness): a frequency error of 25000 raises the restart
condition; the source's own example error 431 parses normally. -/
theorem freq_error_threshold_witness :
    CHANNELPacket_parse_text euState 1000 (.chan13 3 868437250 25000 1) =
      .error (.weewxIOError
        "RESTART RTLDAVIS PROGRAM: abs freqOffset channel too big") ∧
    (∃ p, CHANNELPacket_parse_text euState 1000 (.chan13 3 868437250 431 1) = .ok p) :=
  ⟨((freq_error_threshold euState 1000 3 868437250 25000 1).1 (by decide)).1,
   ((freq_error_threshold euState 1000 3 868437250 431 1).2.1 (by decide)).1⟩

/-! ## C9: constructor-time configuration checks -/

/-- C9 (counterexample).  The claim states that an invalid channel
assignment (a role channel outside 0-8) fails fast at construction
time.  Constructing with `anemometer_channel = 9` instead succeeds:
`driverInitChecks` returns the derived configuration (with transmitter
bit 8 set) and raises nothing. -/
theorem channel_out_of_range_accepted_cex :
    driverInitChecks ⟨1, "EU", 1, 9, 0, 0, 0⟩ =
      .ok (0.2, 9, 257, 1, [0, 9, 9, 9, 9, 9, 9, 9]) ∧ ¬(9 : Int) ≤ 8 :=
  ⟨by rfl, by decide⟩

/-- C9 (amended): an invalid frequency band and an invalid rain-bucket
type each fail fast with `ValueError` at construction time, before the
external process is started; channel assignments are not range-checked
(out-of-range channels such as 9 are accepted), and only a
non-positive ISS channel incidentally raises, via Python's negative
shift count in `ch_to_xmit`. -/
theorem config_validation_amended (c : DrvConfig) :
    (c.bucket_type ≠ 0 ∧ c.bucket_type ≠ 1 →
      driverInitChecks c = .error (.valueError "unsupported rain bucket type")) ∧
    ((c.bucket_type = 0 ∨ c.bucket_type = 1) →
      c.frequency ≠ "US" ∧ c.frequency ≠ "NZ" ∧ c.frequency ≠ "EU" →
      driverInitChecks c = .error (.valueError "invalid frequency")) ∧
    ((c.bucket_type = 0 ∨ c.bucket_type = 1) →
      (c.frequency = "US" ∨ c.frequency = "NZ" ∨ c.frequency = "EU") →
      c.iss ≤ 0 →
      driverInitChecks c = .error (.valueError "negative shift count")) := by
  refine ⟨fun hb => ?_, fun hb hf => ?_, fun hb hf hiss => ?_⟩
  · simp [driverInitChecks, hb, throw, throwThe, MonadExceptOf.throw]
  · have hb' : ¬(c.bucket_type ≠ 0 ∧ c.bucket_type ≠ 1) := by
      rcases hb with hb | hb <;> simp [hb]
    simp [driverInitChecks, hb', hf, throw, throwThe, MonadExceptOf.throw]
  · have hb' : ¬(c.bucket_type ≠ 0 ∧ c.bucket_type ≠ 1) := by
      rcases hb with hb | hb <;> simp [hb]
    have hf' : ¬(c.frequency ≠ "US" ∧ c.frequency ≠ "NZ" ∧ c.frequency ≠ "EU") := by
      rcases hf with hf | hf | hf <;> simp [hf]
    have hs : c.iss - 1 < 0 := by omega
    simp only [driverInitChecks, hb', hf', if_false]
    simp only [ch_to_xmit, pyShl1, if_pos hs]
    rfl

/-- C9 (witness for the amended theorem): bucket type 2 and band "XX"
are rejected with `ValueError`, and ISS channel 0 raises the negative
shift error. -/
theorem config_validation_amended_witness :
    driverInitChecks ⟨2, "EU", 1, 0, 0, 0, 0⟩ =
      .error (.valueError "unsupported rain bucket type") ∧
    driverInitChecks ⟨1, "XX", 1, 0, 0, 0, 0⟩ =
      .error (.valueError "invalid frequency") ∧
    driverInitChecks ⟨1, "EU", 0, 0, 0, 0, 0⟩ =
      .error (.valueError "negative shift count") :=
  ⟨(config_validation_amended ⟨2, "EU", 1, 0, 0, 0, 0⟩).1 (by decide),
   (config_validation_amended ⟨1, "XX", 1, 0, 0, 0, 0⟩).2.1 (by decide) (by decide),
   (config_validation_amended ⟨1, "EU", 0, 0, 0, 0, 0⟩).2.2 (by decide) (by decide)
     (by decide)⟩

/-! ## C10: thermistor conversion is total on raw 1..1023 -/

/-! ## C3: wind-speed error correction -/

/-- C3 (counterexample).  The claim states that away from exact grid
points `calc_wind_speed_ec` adds a bilinear interpolation over the four
surrounding table corners.  At raw speed 32 (between grid rows 30 and
35) and raw angle 112 (an exact grid column, corner corrections 3 and
4), the claimed algorithm gives `32 + 0.6*3 + 0.4*4 = 35.4` but the
source returns `32 + 3 = 35`: its `interpolate` multiplies the speed
weight by the difference of two identical corners (`y1 - y0` with
`a1 = a0`), so the upper bracketing row is ignored. -/
theorem wind_correction_not_bilinear_cex :
    calc_wind_speed_ec 32 112 = 35 ∧ specWindCorrect 32 112 = 177 / 5 ∧
    (35 : ℚ) ≠ 177 / 5 :=
  ⟨by rfl, by rfl, by decide⟩

theorem scanGE_ge (get : Nat → Int) (x : Int) (fuel : Nat) : ∀ i : Nat,
    i ≤ scanGE get x fuel i := by
  induction fuel with
  | zero => intro i; simp [scanGE]
  | succ f ih =>
    intro i
    simp only [scanGE]
    split
    · exact le_trans (Nat.le_succ i) (ih (i + 1))
    · exact le_refl i

theorem scanGE_le (get : Nat → Int) (x : Int) (j : Nat) (hj : ¬ get j < x) :
    ∀ fuel i : Nat, i ≤ j → j ≤ i + fuel → scanGE get x fuel i ≤ j := by
  intro fuel
  induction fuel with
  | zero =>
    intro i hij hjf
    simpa [scanGE] using hij
  | succ f ih =>
    intro i hij hjf
    simp only [scanGE]
    split
    · rename_i hlt
      have hij' : i + 1 ≤ j := by
        rcases Nat.eq_or_lt_of_le hij with rfl | h
        · exact absurd hlt hj
        · omega
      exact ih (i + 1) hij' (by omega)
    · exact hij

theorem hdr_adjacent : ∀ j < 34, 1 ≤ j → wtv 0 j < wtv 0 (j + 1) := by decide

theorem col_adjacent : ∀ s < 54, 1 ≤ s → wtv s 0 < wtv (s + 1) 0 := by decide

/-- Characterization of the bracketing indices: each pair is either a
single exact index or two adjacent indices within the table whose grid
values differ. -/
theorem windLocate_spec (m a : Int) (hm3 : 3 ≤ m) (hm150 : m ≤ 150)
    (ha : a ≤ 128) :
    ((windLocate m a).1 = (windLocate m a).2.1 ∨
      ((windLocate m a).2.1 = (windLocate m a).1 + 1 ∧
        wtv (windLocate m a).1 0 ≠ wtv (windLocate m a).2.1 0)) ∧
    ((windLocate m a).2.2.1 = (windLocate m a).2.2.2 ∨
      ((windLocate m a).2.2.2 = (windLocate m a).2.2.1 + 1 ∧
        wtv 0 (windLocate m a).2.2.1 ≠ wtv 0 (windLocate m a).2.2.2)) := by
  have h54 : wtv 54 0 = 150 := by decide
  have h34 : wtv 0 34 = 128 := by decide
  have hs_ge : 1 ≤ scanGE (fun s => wtv s 0) m 54 1 := scanGE_ge _ _ _ 1
  have hs_le : scanGE (fun s => wtv s 0) m 54 1 ≤ 54 :=
    scanGE_le _ _ 54 (by rw [h54]; omega) 54 1 (by omega) (by omega)
  have ha_ge : 1 ≤ scanGE (fun j => wtv 0 j) a 34 1 := scanGE_ge _ _ _ 1
  have ha_le : scanGE (fun j => wtv 0 j) a 34 1 ≤ 34 :=
    scanGE_le _ _ 34 (by rw [h34]; omega) 34 1 (by omega) (by omega)
  unfold windLocate
  dsimp only
  constructor
  · split
    · exact Or.inl rfl
    · set s0i := scanGE (fun s => wtv s 0) m 54 1 with hs0i
      by_cases h1 : s0i > 1
      · rw [if_pos h1]
        have hne54 : ¬(s0i - 1 = 54) := by omega
        rw [if_neg hne54]
        refine Or.inr ⟨rfl, ne_of_lt (col_adjacent (s0i - 1) (by omega) (by omega))⟩
      · rw [if_neg h1]
        have hne54 : ¬(s0i = 54) := by omega
        rw [if_neg hne54]
        refine Or.inr ⟨rfl, ne_of_lt (col_adjacent s0i (by omega) (by omega))⟩
  · split
    · exact Or.inl rfl
    · set a0i := scanGE (fun j => wtv 0 j) a 34 1 with ha0i
      by_cases h1 : a0i > 1
      · rw [if_pos h1]
        have hne54 : ¬(a0i - 1 = 54) := by omega
        rw [if_neg hne54]
        refine Or.inr ⟨rfl, ne_of_lt (hdr_adjacent (a0i - 1) (by omega) (by omega))⟩
      · rw [if_neg h1]
        have hne54 : ¬(a0i = 54) := by omega
        rw [if_neg hne54]
        refine Or.inr ⟨rfl, ne_of_lt (hdr_adjacent a0i (by omega) (by omega))⟩

/-- C3 (amended): `calc_wind_speed_ec` equals, for every raw speed and
raw angle, the spec's algorithm amended in two points — speeds outside
[3, 150] are returned uncorrected, and when the (folded) angle matches
a grid column exactly while the speed is not a grid row, the correction
of the lower bracketing speed row is added unchanged instead of
interpolating toward the upper row.  At exact grid points the table
entry is used directly; exact-speed rows interpolate linearly over the
bracketing angle columns; all remaining cases interpolate bilinearly
over the four surrounding corners. -/
theorem calc_wind_speed_ec_amended (m a : Int) :
    calc_wind_speed_ec m a = amendedWindCorrect m a := by
  unfold calc_wind_speed_ec amendedWindCorrect
  by_cases hg : m < 3 ∨ m > 150
  · rw [if_pos hg, if_pos hg]
  · rw [if_neg hg, if_neg hg]
    push_neg at hg
    obtain ⟨hm3, hm150⟩ := hg
    have hm3' : 3 ≤ m := by omega
    have ha : (if a > 128 then 256 - a else a) ≤ 128 := by split <;> omega
    obtain ⟨hs, hA⟩ := windLocate_spec m _ hm3' hm150 ha
    dsimp only
    rcases hl : windLocate m (if a > 128 then 256 - a else a) with ⟨s0, s1, a0, a1⟩
    rw [hl] at hs hA
    dsimp only at hs hA ⊢
    by_cases hexact : s0 = s1 ∧ a0 = a1
    · rw [if_pos hexact, if_pos hexact]
    · rw [if_neg hexact, if_neg hexact]
      by_cases haa : a0 = a1
      · rw [if_pos haa]
        subst haa
        unfold interpolate
        rw [if_pos rfl]
        ring
      · rw [if_neg haa]
        have hAne : wtv 0 a0 ≠ wtv 0 a1 := by
          rcases hA with h | ⟨_, hne⟩
          · exact absurd h haa
          · exact hne
        have hAneQ : ¬((wtv 0 a0 : ℚ) = (wtv 0 a1 : ℚ)) := by
          exact_mod_cast hAne
        unfold interpolate
        rw [if_neg hAneQ]
        by_cases hss : s0 = s1
        · rw [if_pos hss]
          subst hss
          rw [if_pos rfl]
          ring
        · rw [if_neg hss]
          have hSne : wtv s0 0 ≠ wtv s1 0 := by
            rcases hs with h | ⟨_, hne⟩
            · exact absurd h hss
            · exact hne
          have hSneQ : ¬((wtv s0 0 : ℚ) = (wtv s1 0 : ℚ)) := by
            exact_mod_cast hSne
          rw [if_neg hSneQ]
          ring

/-- C10: for every integer raw thermistor value 1..1023,
`calculate_thermistor_temp` returns a numeric temperature and never
raises: the derived resistance is non-positive exactly for raw values
1002 and above, in which case the caught math-domain error yields the
default soil temperature 24 C; raw value 0 is excluded because it
divides by zero.  The hypothesis on `log` is the only property of
`math.log` the code relies on: on the resistances reachable here
(all above 1/100 kOhm) the natural logarithm stays far above -11, so
the Steinhart-Hart denominator cannot vanish. -/
theorem thermistor_safe (log : ℚ → ℚ) (raw : ℕ)
    (h1 : 1 ≤ raw) (h2 : raw ≤ 1023)
    (hlog : -11 ≤ log (thermResistance (raw : ℚ))) :
    (∃ v, calculate_thermistor_temp log (raw : ℚ) = .ok v) ∧
    (thermResistance (raw : ℚ) ≤ 0 ↔ 1002 ≤ raw) ∧
    (1002 ≤ raw → calculate_thermistor_temp log (raw : ℚ) = .ok DEFAULT_SOIL_TEMP) ∧
    calculate_thermistor_temp log 0 = .error .zeroDivisionError := by
  have hp : 0 < raw := h1
  have hq0 : (0 : ℚ) < (raw : ℚ) := by exact_mod_cast hp
  have hraw0 : ¬((raw : ℚ) = 0) := ne_of_gt hq0
  have hxpos : raw ≤ 1001 → 0 < 1 / (raw : ℚ) - 0.0009988027 := by
    intro hr
    have hle : (raw : ℚ) ≤ 1001 := by exact_mod_cast hr
    have hlt : (0.0009988027 : ℚ) < 1 / (raw : ℚ) := by
      rw [lt_div_iff₀ hq0]
      linarith
    linarith
  have hxneg : 1002 ≤ raw → 1 / (raw : ℚ) - 0.0009988027 < 0 := by
    intro hr
    have hle : (1002 : ℚ) ≤ (raw : ℚ) := by exact_mod_cast hr
    have hlt : 1 / (raw : ℚ) < 0.0009988027 := by
      rw [div_lt_iff₀ hq0]
      linarith
    linarith
  have hres : thermResistance (raw : ℚ) =
      18.81099 / (1 / (raw : ℚ) - 0.0009988027) / 1000 := rfl
  have hrsign : (raw ≤ 1001 ∧ 0 < thermResistance (raw : ℚ)) ∨
      (1002 ≤ raw ∧ thermResistance (raw : ℚ) < 0) := by
    by_cases hr : raw ≤ 1001
    · refine Or.inl ⟨hr, ?_⟩
      rw [hres]
      exact div_pos (div_pos (by norm_num) (hxpos hr)) (by norm_num)
    · have hr' : 1002 ≤ raw := by omega
      refine Or.inr ⟨hr', ?_⟩
      rw [hres]
      exact div_neg_of_neg_of_pos
        (div_neg_of_pos_of_neg (by norm_num) (hxneg hr')) (by norm_num)
  have hiff : thermResistance (raw : ℚ) ≤ 0 ↔ 1002 ≤ raw := by
    rcases hrsign with ⟨hr, hpos⟩ | ⟨hr, hneg⟩
    · constructor
      · intro hle
        exact absurd hle (not_le.2 hpos)
      · intro h
        omega
    · exact ⟨fun _ => hr, fun _ => le_of_lt hneg⟩
  have hxne : ¬((1 : ℚ) / (raw : ℚ) - 0.0009988027 = 0) := by
    rcases hrsign with ⟨hr, _⟩ | ⟨hr, _⟩
    · exact ne_of_gt (hxpos hr)
    · exact ne_of_lt (hxneg hr)
  have heval : calculate_thermistor_temp log (raw : ℚ) =
      if thermResistance (raw : ℚ) ≤ 0 then Except.ok DEFAULT_SOIL_TEMP
      else
        if 0.002783573 + 0.0002509406 * log (thermResistance (raw : ℚ)) = 0 then
          Except.error PyErr.zeroDivisionError
        else
          Except.ok (1 / (0.002783573 + 0.0002509406 * log (thermResistance (raw : ℚ))) - 273) := by
    simp only [calculate_thermistor_temp]
    rw [if_neg hraw0, if_neg hxne]
  refine ⟨?_, hiff, fun h1002 => ?_, rfl⟩
  · rw [heval]
    by_cases hrle : thermResistance (raw : ℚ) ≤ 0
    · rw [if_pos hrle]
      exact ⟨_, rfl⟩
    · have hd : 0 < 0.002783573 + 0.0002509406 * log (thermResistance (raw : ℚ)) := by
        have hmul : (0.0002509406 : ℚ) * (-11) ≤
            0.0002509406 * log (thermResistance (raw : ℚ)) :=
          mul_le_mul_of_nonneg_left hlog (by norm_num)
        have hc : (0.002783573 : ℚ) + 0.0002509406 * (-11) > 0 := by norm_num
        linarith
      rw [if_neg hrle, if_neg (ne_of_gt hd)]
      exact ⟨_, rfl⟩
  · rw [heval, if_pos (hiff.2 h1002)]

/-- C10 (witness): at raw value 1002 (non-positive resistance) the
default soil temperature is returned, and at raw value 500 some value
is returned; nothing is raised in either case. -/
theorem thermistor_safe_witness :
    calculate_thermistor_temp (fun _ => 0) ((1002 : ℕ) : ℚ) =
      .ok DEFAULT_SOIL_TEMP ∧
    (∃ v, calculate_thermistor_temp (fun _ => 0) ((500 : ℕ) : ℚ) = .ok v) :=
  ⟨(thermistor_safe (fun _ => 0) 1002 (by decide) (by decide)
      (by norm_num)).2.2.1 (by decide),
   (thermistor_safe (fun _ => 0) 500 (by decide) (by decide) (by norm_num)).1⟩

end Rtldavis
